import Mathlib

/-!
# sling::jit CPU feature probe (`jit/cpu.h`, `jit/cpu.cc`)

A shallow embedding of the processor-identification constructor
`ProcessorInformation::ProcessorInformation` and of the static feature cache
`CPU` (`Probe`, `Initialize`, `Enabled`, `Enable`, `Disable`, ...).

Conventions.
* A C `int` / `unsigned` is held as its 32-bit pattern, a `Nat` below `2 ^ 32`;
  every value that enters from the hardware is reduced `% 2 ^ 32`.
* Signed `>>` is the arithmetic shift of the two's-complement value (`sar32`).
* The hardware is an arbitrary pair of functions (`cpuid`, `xgetbv`); every
  executed hardware instruction is appended to a log, so that statements about
  which leaves are queried, and how often, can be made.
* A `char` buffer is the list of its bytes (`Nat` below 256).
* The register codes and condition codes of `jit/registers.h` are small enum
  values on which no operation can overflow; they are held as `Int`, with the
  arithmetic shift and the two's-complement `&` and `^` of `Int`.
-/

namespace sling.jit

/-! ## Machine integers -/

/-- Reduction of a natural number to a 32-bit pattern. -/
def wrap32 (n : Nat) : Nat := n % 2 ^ 32

/-- Value of a 32-bit pattern read as a two's-complement `int`. -/
def toInt32 (w : Nat) : Int :=
  if w % 2 ^ 32 < 2 ^ 31 then ((w % 2 ^ 32 : Nat) : Int) else ((w % 2 ^ 32 : Nat) : Int) - 2 ^ 32

/-- Pattern of an integer stored into a 32-bit `int`. -/
def ofInt32 (i : Int) : Nat := (i % 2 ^ 32).toNat

/-- Signed `w >> k` on 32-bit `int`s: arithmetic shift of the signed value. -/
def sar32 (w k : Nat) : Nat := ofInt32 (toInt32 w >>> k)

/-- The four little-endian bytes of a 32-bit word, as `memcpy` / a `char*`
walk over an `int` sees them. -/
def bytesLE (w : Nat) : List Nat :=
  [w % 256, w / 2 ^ 8 % 256, w / 2 ^ 16 % 256, w / 2 ^ 24 % 256]

/-! ## Hardware -/

/-- Output registers of the `cpuid` instruction. -/
structure Regs where
  eax : Nat
  ebx : Nat
  ecx : Nat
  edx : Nat
deriving DecidableEq, Repr

/-- The processor as seen by the probe: what `cpuid` returns for the inputs
`eax`, `ecx`, and what `xgetbv` returns (`eax`, `edx`) for the input `ecx`. -/
structure Hardware where
  cpuid : Nat → Nat → Regs
  xgetbv : Nat → Nat × Nat

/-- One executed hardware instruction. -/
inductive HwQuery where
  | cpuid (leaf : Nat)
  | xgetbv (xcr : Nat)
deriving DecidableEq, Repr

/-- The local array `int cpu_info[4]`. -/
structure CpuInfo where
  w0 : Nat
  w1 : Nat
  w2 : Nat
  w3 : Nat
deriving DecidableEq, Repr

/-- What `__cpuid(cpu_info, info_type)` stores: `eax, ebx, ecx, edx` of the
instruction executed with `eax = info_type`, `ecx = 0`. -/
def cpuid_words (hw : Hardware) (info_type : Nat) : CpuInfo :=
  let r := hw.cpuid info_type 0
  { w0 := wrap32 r.eax, w1 := wrap32 r.ebx, w2 := wrap32 r.ecx, w3 := wrap32 r.edx }

/-- Result of `_xgetbv(xcr)`: `eax | (edx << 32)` as a 64-bit value. -/
def _xgetbv (hw : Hardware) (xcr : Nat) : Nat :=
  (wrap32 (hw.xgetbv xcr).1 ||| (wrap32 (hw.xgetbv xcr).2 <<< 32)) % 2 ^ 64

/-- Result of `os_has_avx_support()`. -/
def os_has_avx_support (hw : Hardware) : Bool :=
  let feature_mask := _xgetbv hw 0
  (feature_mask &&& 0x6) == 0x6

/-! ## ProcessorInformation -/

/-- The bytes of the literal `"Unknown"` with its terminator (8 bytes). -/
def Unknown : List Nat := [85, 110, 107, 110, 111, 119, 110, 0]

/-- The bytes of the literal `"GenuineIntel"` with its terminator. -/
def GenuineIntel : List Nat := [71, 101, 110, 117, 105, 110, 101, 73, 110, 116, 101, 108, 0]

/-- The bytes of the literal `"AuthenticAMD"` with its terminator. -/
def AuthenticAMD : List Nat := [65, 117, 116, 104, 101, 110, 116, 105, 99, 65, 77, 68, 0]

/-- Fields of `class ProcessorInformation`, with their in-class initialisers.
`vendor_` and `brand_` hold the bytes of the buffer up to and including the
last terminator written. -/
structure ProcessorInformation where
  vendor_ : List Nat := []
  brand_ : List Nat := []
  stepping_ : Nat := 0
  model_ : Nat := 0
  ext_model_ : Nat := 0
  family_ : Nat := 0
  ext_family_ : Nat := 0
  type_ : Nat := 0
  cache_line_size_ : Nat := 0
  has_fpu_ : Bool := false
  has_cmov_ : Bool := false
  has_sahf_ : Bool := false
  has_mmx_ : Bool := false
  has_sse_ : Bool := false
  has_sse2_ : Bool := false
  has_sse3_ : Bool := false
  has_ssse3_ : Bool := false
  has_sse41_ : Bool := false
  has_sse42_ : Bool := false
  has_f16c_ : Bool := false
  has_osxsave_ : Bool := false
  has_avx_ : Bool := false
  has_avx2_ : Bool := false
  has_fma3_ : Bool := false
  has_bmi1_ : Bool := false
  has_bmi2_ : Bool := false
  has_lzcnt_ : Bool := false
  has_popcnt_ : Bool := false
  has_zero_idiom_ : Bool := false
  has_one_idiom_ : Bool := false
deriving DecidableEq, Repr

namespace ProcessorInformation

/-- The C string held in a `char` buffer: the bytes before the first NUL. -/
def cstr (buf : List Nat) : List Nat := buf.takeWhile (fun c => c != 0)

/-- Whether `strcmp(a, b) == 0`: byte-wise comparison up to the first
difference or the first NUL. -/
def strcmp_eq : List Nat → List Nat → Bool
  | a :: as, b :: bs => if a != b then false else if a == 0 then true else strcmp_eq as bs
  | _, _ => false

def vendor (p : ProcessorInformation) : List Nat := cstr p.vendor_
def brand (p : ProcessorInformation) : List Nat := cstr p.brand_
def stepping (p : ProcessorInformation) : Nat := p.stepping_
def model (p : ProcessorInformation) : Nat := p.model_
def ext_model (p : ProcessorInformation) : Nat := p.ext_model_
def family (p : ProcessorInformation) : Nat := p.family_
def ext_family (p : ProcessorInformation) : Nat := p.ext_family_
def type (p : ProcessorInformation) : Nat := p.type_
def family_model (p : ProcessorInformation) : Nat := wrap32 (p.family_ <<< 8) ||| p.model_
def has_fpu (p : ProcessorInformation) : Bool := p.has_fpu_
def cache_line_size (p : ProcessorInformation) : Nat := p.cache_line_size_
def has_cmov (p : ProcessorInformation) : Bool := p.has_cmov_
def has_sahf (p : ProcessorInformation) : Bool := p.has_sahf_
def has_mmx (p : ProcessorInformation) : Bool := p.has_mmx_
def has_sse (p : ProcessorInformation) : Bool := p.has_sse_
def has_sse2 (p : ProcessorInformation) : Bool := p.has_sse2_
def has_sse3 (p : ProcessorInformation) : Bool := p.has_sse3_
def has_ssse3 (p : ProcessorInformation) : Bool := p.has_ssse3_
def has_sse41 (p : ProcessorInformation) : Bool := p.has_sse41_
def has_sse42 (p : ProcessorInformation) : Bool := p.has_sse42_
def has_f16c (p : ProcessorInformation) : Bool := p.has_f16c_
def has_osxsave (p : ProcessorInformation) : Bool := p.has_osxsave_
def has_avx (p : ProcessorInformation) : Bool := p.has_avx_
def has_avx2 (p : ProcessorInformation) : Bool := p.has_avx2_
def has_fma3 (p : ProcessorInformation) : Bool := p.has_fma3_
def has_bmi1 (p : ProcessorInformation) : Bool := p.has_bmi1_
def has_bmi2 (p : ProcessorInformation) : Bool := p.has_bmi2_
def has_lzcnt (p : ProcessorInformation) : Bool := p.has_lzcnt_
def has_popcnt (p : ProcessorInformation) : Bool := p.has_popcnt_
def has_zero_idiom (p : ProcessorInformation) : Bool := p.has_zero_idiom_
def has_one_idiom (p : ProcessorInformation) : Bool := p.has_one_idiom_

/-- The object under construction together with the constructor's locals and
the log of hardware instructions executed so far. -/
structure Frame where
  self : ProcessorInformation
  cpu_info : CpuInfo
  num_ids : Nat
  num_ext_ids : Nat
  log : List HwQuery
deriving DecidableEq, Repr

/-- The call `__cpuid(cpu_info, info_type)`. -/
def __cpuid (hw : Hardware) (info_type : Nat) (fr : Frame) : Frame :=
  { fr with cpu_info := cpuid_words hw info_type, log := fr.log ++ [HwQuery.cpuid info_type] }

/-- Lines 69-78: the two `memcpy` of `"Unknown"`, the leaf-0 query, `num_ids`,
the swap of `cpu_info[2]` and `cpu_info[3]`, and the vendor bytes. -/
def basicBlock (hw : Hardware) : Frame :=
  let fr : Frame :=
    { self := { vendor_ := Unknown, brand_ := Unknown },
      cpu_info := ⟨0, 0, 0, 0⟩, num_ids := 0, num_ext_ids := 0, log := [] }
  let fr := __cpuid hw 0 fr
  let fr := { fr with num_ids := fr.cpu_info.w0 }
  let fr := { fr with cpu_info := { fr.cpu_info with w2 := fr.cpu_info.w3, w3 := fr.cpu_info.w2 } }
  { fr with self := { fr.self with
      vendor_ := bytesLE fr.cpu_info.w1 ++ bytesLE fr.cpu_info.w2 ++ bytesLE fr.cpu_info.w3 ++ [0] } }

/-- Lines 81-103: `if (num_ids > 0) { __cpuid(cpu_info, 1); ... }`. -/
def leaf1Block (hw : Hardware) (fr : Frame) : Frame :=
  if fr.num_ids > 0 then
    let fr := __cpuid hw 1 fr
    let c := fr.cpu_info
    { fr with self := { fr.self with
        stepping_ := c.w0 &&& 0xf,
        model_ := wrap32 ((sar32 c.w0 4 &&& 0xf) + (sar32 c.w0 12 &&& 0xf0)),
        family_ := sar32 c.w0 8 &&& 0xf,
        type_ := sar32 c.w0 12 &&& 0x3,
        ext_model_ := sar32 c.w0 16 &&& 0xf,
        ext_family_ := sar32 c.w0 20 &&& 0xff,
        has_fpu_ := (c.w3 &&& 0x00000001) != 0,
        has_cmov_ := (c.w3 &&& 0x00008000) != 0,
        has_mmx_ := (c.w3 &&& 0x00800000) != 0,
        has_sse_ := (c.w3 &&& 0x02000000) != 0,
        has_sse2_ := (c.w3 &&& 0x04000000) != 0,
        has_sse3_ := (c.w2 &&& 0x00000001) != 0,
        has_ssse3_ := (c.w2 &&& 0x00000200) != 0,
        has_sse41_ := (c.w2 &&& 0x00080000) != 0,
        has_sse42_ := (c.w2 &&& 0x00100000) != 0,
        has_f16c_ := (c.w2 &&& 0x20000000) != 0,
        has_popcnt_ := (c.w2 &&& 0x00800000) != 0,
        has_osxsave_ := (c.w2 &&& 0x08000000) != 0,
        has_avx_ := (c.w2 &&& 0x10000000) != 0,
        has_fma3_ := (c.w2 &&& 0x00001000) != 0 } }
  else fr

/-- Lines 106-111: `if (num_ids >= 7) { __cpuid(cpu_info, 7); ... }`. -/
def leaf7Block (hw : Hardware) (fr : Frame) : Frame :=
  if fr.num_ids ≥ 7 then
    let fr := __cpuid hw 7 fr
    let c := fr.cpu_info
    { fr with self := { fr.self with
        has_bmi1_ := (c.w1 &&& 0x00000008) != 0,
        has_bmi2_ := (c.w1 &&& 0x00000100) != 0,
        has_avx2_ := (c.w1 &&& 0x00000020) != 0 } }
  else fr

/-- Lines 114-115: the leaf `0x80000000` query and `num_ext_ids`. -/
def extIdsBlock (hw : Hardware) (fr : Frame) : Frame :=
  let fr := __cpuid hw 0x80000000 fr
  { fr with num_ext_ids := fr.cpu_info.w0 }

/-- Line 127: `while (p < end && *p == ' ') p++;`, on the bytes from `p` up
to `end`; the result is the range that is left. -/
def skipSpaces : List Nat → List Nat
  | [] => []
  | c :: rest => if c == 32 then skipSpaces rest else c :: rest

/-- Lines 128-137: the copying loop. The arguments are the bytes from `p` up to
`end`, the flag `space`, and the bytes written through `q` so far; the result
is the bytes written through `q` when the loop ends. -/
def compactLoop : List Nat → Bool → List Nat → List Nat
  | [], _, out => out
  | c :: rest, space, out =>
    if c == 32 then compactLoop rest true out
    else compactLoop rest false ((if space then out ++ [32] else out) ++ [c])

/-- Lines 125-138 on the 48 raw bytes: the content of `brand_` up to and
including the terminator written by `*q = 0`. -/
def compactBrand (raw : List Nat) : List Nat :=
  compactLoop (skipSpaces raw) false [] ++ [0]

/-- The 48 bytes of `int brand[12]` after the three brand queries. -/
def rawBrand (b0 b1 b2 : CpuInfo) : List Nat :=
  bytesLE b0.w0 ++ bytesLE b0.w1 ++ bytesLE b0.w2 ++ bytesLE b0.w3 ++
  bytesLE b1.w0 ++ bytesLE b1.w1 ++ bytesLE b1.w2 ++ bytesLE b1.w3 ++
  bytesLE b2.w0 ++ bytesLE b2.w1 ++ bytesLE b2.w2 ++ bytesLE b2.w3

/-- Lines 118-139: `if (num_ext_ids > 0x80000000) { ... brand ... }`. The three
queries write into the local `brand`, not into `cpu_info`. -/
def brandBlock (hw : Hardware) (fr : Frame) : Frame :=
  if fr.num_ext_ids > 0x80000000 then
    let b0 := cpuid_words hw 0x80000002
    let b1 := cpuid_words hw 0x80000003
    let b2 := cpuid_words hw 0x80000004
    { fr with
      log := fr.log ++ [HwQuery.cpuid 0x80000002, HwQuery.cpuid 0x80000003,
                        HwQuery.cpuid 0x80000004],
      self := { fr.self with brand_ := compactBrand (rawBrand b0 b1 b2) } }
  else fr

/-- Lines 142-147: `if (num_ext_ids > 0x80000000) { __cpuid(cpu_info, 0x80000001); ... }`. -/
def extFeatureBlock (hw : Hardware) (fr : Frame) : Frame :=
  if fr.num_ext_ids > 0x80000000 then
    let fr := __cpuid hw 0x80000001 fr
    let c := fr.cpu_info
    { fr with self := { fr.self with
        has_lzcnt_ := (c.w2 &&& 0x00000020) != 0,
        has_sahf_ := (c.w2 &&& 0x00000001) != 0 } }
  else fr

/-- Lines 150-153: the two idiom flags. -/
def idiomBlock (fr : Frame) : Frame :=
  let fr := if fr.self.family_model ≥ 0x062A then
      { fr with self := { fr.self with has_zero_idiom_ := true } } else fr
  if fr.self.family_model ≥ 0x065E then
    { fr with self := { fr.self with has_one_idiom_ := true } } else fr

/-- Lines 156-164: the cache line size, by vendor. -/
def cacheLineBlock (hw : Hardware) (fr : Frame) : Frame :=
  if strcmp_eq fr.self.vendor_ GenuineIntel then
    let fr := __cpuid hw 0x00000001 fr
    { fr with self := { fr.self with
        cache_line_size_ := wrap32 ((sar32 fr.cpu_info.w1 8 &&& 0xff) * 8) } }
  else if strcmp_eq fr.self.vendor_ AuthenticAMD then
    let fr := __cpuid hw 0x80000005 fr
    { fr with self := { fr.self with cache_line_size_ := fr.cpu_info.w2 &&& 0xff } }
  else
    { fr with self := { fr.self with cache_line_size_ := 64 } }

/-- The whole constructor body, with its locals and log. -/
def constructFrame (hw : Hardware) : Frame :=
  cacheLineBlock hw (idiomBlock (extFeatureBlock hw (brandBlock hw
    (extIdsBlock hw (leaf7Block hw (leaf1Block hw (basicBlock hw)))))))

/-- The object built by `ProcessorInformation::ProcessorInformation()`. -/
def construct (hw : Hardware) : ProcessorInformation := (constructFrame hw).self

/-- The hardware instructions the constructor executes, in order. -/
def constructLog (hw : Hardware) : List HwQuery := (constructFrame hw).log

/-- `ProcessorInformation::architecture()`: the `switch` on `family_model()`,
one test per group of `case` labels, in the order of the source. -/
def architecture (p : ProcessorInformation) : String :=
  let fm := p.family_model
  if fm = 0x065E then "Skylake"
  else if fm = 0x063D then "Broadwell"
  else if fm = 0x063C ∨ fm = 0x063F ∨ fm = 0x0645 ∨ fm = 0x0646 then "Haswell"
  else if fm = 0x064A then "Silvermont"
  else if fm = 0x063A ∨ fm = 0x063E then "Ivy Bridge"
  else if fm = 0x062A ∨ fm = 0x062D then "Sandy Bridge"
  else if fm = 0x061E ∨ fm = 0x061A ∨ fm = 0x062E then "Nehalem"
  else if fm = 0x0625 ∨ fm = 0x062C ∨ fm = 0x062F then "Westmere"
  else if fm = 0x0617 ∨ fm = 0x061D then "Penryn"
  else if fm = 0x060F ∨ fm = 0x0616 then "Merom"
  else if fm = 0x0F06 then "Presler"
  else if fm = 0x0F03 ∨ fm = 0x0F04 then "Prescott"
  else if fm = 0x060D then "Dothan"
  else ""

end ProcessorInformation

/-! ## CPU feature cache -/

/-- The enumeration `CpuFeature`, in declaration order. -/
inductive CpuFeature where
  | MMX | SSE | SSE2 | SSE3 | SSSE3 | SSE4_1 | SSE4_2 | F16C | AVX | AVX2 | FMA3
  | SAHF | BMI1 | BMI2 | LZCNT | POPCNT | ZEROIDIOM | ONEIDIOM
  | NUMBER_OF_CPU_FEATURES
deriving DecidableEq, Repr

/-- The ordinal value of an enumerator. -/
def CpuFeature.toNat : CpuFeature → Nat
  | .MMX => 0 | .SSE => 1 | .SSE2 => 2 | .SSE3 => 3 | .SSSE3 => 4 | .SSE4_1 => 5
  | .SSE4_2 => 6 | .F16C => 7 | .AVX => 8 | .AVX2 => 9 | .FMA3 => 10 | .SAHF => 11
  | .BMI1 => 12 | .BMI2 => 13 | .LZCNT => 14 | .POPCNT => 15 | .ZEROIDIOM => 16
  | .ONEIDIOM => 17 | .NUMBER_OF_CPU_FEATURES => 18

/-- The expression `1u << f`. -/
def bit (f : CpuFeature) : Nat := wrap32 (1 <<< f.toNat)

/-- The expression `~x` on `unsigned`. -/
def not32 (x : Nat) : Nat := 0xFFFFFFFF ^^^ wrap32 x

/-- The static data members of `class CPU`, with the initial values given in
`cpu.cc`. -/
structure CPU where
  initialized : Bool := false
  features : Nat := 0
  cache_line_size : Nat := 0
  vzero_needed : Bool := false
deriving DecidableEq, Repr

/-- The process state: the static members of `CPU` and the log of hardware
instructions executed so far. -/
structure World where
  cpu : CPU := {}
  log : List HwQuery := []
deriving DecidableEq, Repr

/-- What is fixed outside the program: the processor, and whether the build
defines `__AVX__`. -/
structure Platform where
  hw : Hardware
  AVX_defined : Bool

namespace CPU

/-- The statement `if (b) features |= 1u << f;`. -/
def copyFeature (b : Bool) (f : CpuFeature) (w : World) : World :=
  if b then { w with cpu := { w.cpu with features := w.cpu.features ||| bit f } } else w

/-- Lines 237-241 of `CPU::Initialize`: the AVX block. The OS probe is only
executed when `has_osxsave()` holds. -/
def avxBlock (hw : Hardware) (cpu : ProcessorInformation) (w : World) : World :=
  if cpu.has_osxsave then
    let w := { w with log := w.log ++ [HwQuery.xgetbv 0] }
    if os_has_avx_support hw then
      let w := copyFeature true .AVX w
      let w := copyFeature cpu.has_fma3 .FMA3 w
      copyFeature cpu.has_avx2 .AVX2 w
    else w
  else w

/-- Lines 253-258 of `CPU::Initialize`. -/
def vzeroBlock (AVX_defined : Bool) (cpu : ProcessorInformation) (w : World) : World :=
  let w := { w with cpu := { w.cpu with vzero_needed := false } }
  if cpu.has_avx then
    if !AVX_defined then { w with cpu := { w.cpu with vzero_needed := true } } else w
  else w

/-- `CPU::Initialize()`. -/
def Initialize (pf : Platform) (w : World) : World :=
  let cpu := ProcessorInformation.construct pf.hw
  let w := { w with log := w.log ++ ProcessorInformation.constructLog pf.hw }
  let w := copyFeature cpu.has_mmx .MMX w
  let w := copyFeature cpu.has_sse .SSE w
  let w := copyFeature cpu.has_sse2 .SSE2 w
  let w := copyFeature cpu.has_sse3 .SSE3 w
  let w := copyFeature cpu.has_ssse3 .SSSE3 w
  let w := copyFeature cpu.has_sse41 .SSE4_1 w
  let w := copyFeature cpu.has_f16c .F16C w
  let w := copyFeature cpu.has_sahf .SAHF w
  let w := avxBlock pf.hw cpu w
  let w := copyFeature cpu.has_bmi1 .BMI1 w
  let w := copyFeature cpu.has_bmi2 .BMI2 w
  let w := copyFeature cpu.has_lzcnt .LZCNT w
  let w := copyFeature cpu.has_popcnt .POPCNT w
  let w := copyFeature cpu.has_zero_idiom .ZEROIDIOM w
  let w := copyFeature cpu.has_one_idiom .ONEIDIOM w
  let w := { w with cpu := { w.cpu with cache_line_size := cpu.cache_line_size } }
  vzeroBlock pf.AVX_defined cpu w

/-- `CPU::Probe()`. -/
def Probe (pf : Platform) (w : World) : World :=
  if w.cpu.initialized then w
  else
    let w := Initialize pf w
    { w with cpu := { w.cpu with initialized := true } }

/-- `CPU::SupportedFeatures()`: the returned value and the state after. -/
def SupportedFeatures (pf : Platform) (w : World) : Nat × World :=
  let w := Probe pf w
  (w.cpu.features, w)

/-- `CPU::Enabled(f)`: the returned value and the state after. -/
def Enabled (pf : Platform) (f : CpuFeature) (w : World) : Bool × World :=
  let w := Probe pf w
  ((w.cpu.features &&& bit f) != 0, w)

/-- `CPU::Enable(f)`. -/
def Enable (pf : Platform) (f : CpuFeature) (w : World) : World :=
  let w := Probe pf w
  { w with cpu := { w.cpu with features := w.cpu.features ||| bit f } }

/-- `CPU::Disable(f)`. -/
def Disable (pf : Platform) (f : CpuFeature) (w : World) : World :=
  let w := Probe pf w
  { w with cpu := { w.cpu with features := w.cpu.features &&& not32 (bit f) } }

/-- `CPU::CacheLineSize()`: the returned value and the state after. -/
def CacheLineSize (pf : Platform) (w : World) : Nat × World :=
  let w := Probe pf w
  (w.cpu.cache_line_size, w)

/-- `CPU::VZeroNeeded()`: the returned value and the state after. -/
def VZeroNeeded (pf : Platform) (w : World) : Bool × World :=
  let w := Probe pf w
  (w.cpu.vzero_needed, w)

end CPU

/-- The state at program start: the static members as initialised in `cpu.cc`
and no hardware instruction executed yet. -/
def World.start : World := {}

/-! ## Registers and conditions (`jit/registers.h`) -/

/-- `struct Register`: the general register with code `reg_code`. -/
structure Register where
  reg_code : Int
deriving DecidableEq, Repr

namespace Register

def kAfterLast : Int := 16
def kCode_no_reg : Int := -1
def kNumRegisters : Int := kAfterLast

def from_code (code : Int) : Register := ⟨code⟩
def is_valid (r : Register) : Bool := decide (0 ≤ r.reg_code) && decide (r.reg_code < kNumRegisters)
def is (r reg : Register) : Bool := r.reg_code == reg.reg_code
def code (r : Register) : Int := r.reg_code
def is_byte_register (r : Register) : Bool := decide (r.reg_code ≤ 3)
def high_bit (r : Register) : Int := r.reg_code >>> 3
def low_bits (r : Register) : Int := Int.land r.reg_code 0x7

end Register

def rax : Register := ⟨0⟩
def rcx : Register := ⟨1⟩
def rdx : Register := ⟨2⟩
def rbx : Register := ⟨3⟩
def rsp : Register := ⟨4⟩
def rbp : Register := ⟨5⟩
def rsi : Register := ⟨6⟩
def rdi : Register := ⟨7⟩
def r8 : Register := ⟨8⟩
def r9 : Register := ⟨9⟩
def r10 : Register := ⟨10⟩
def r11 : Register := ⟨11⟩
def r12 : Register := ⟨12⟩
def r13 : Register := ⟨13⟩
def r14 : Register := ⟨14⟩
def r15 : Register := ⟨15⟩
def no_reg : Register := ⟨Register.kCode_no_reg⟩

/-- `struct XMMRegister`. -/
structure XMMRegister where
  reg_code : Int
deriving DecidableEq, Repr

namespace XMMRegister

def kAfterLast : Int := 16
def kCode_no_reg : Int := -1
def kMaxNumRegisters : Int := kAfterLast

def from_code (code : Int) : XMMRegister := ⟨code⟩
def is_valid (r : XMMRegister) : Bool :=
  decide (0 ≤ r.reg_code) && decide (r.reg_code < kMaxNumRegisters)
def is (r reg : XMMRegister) : Bool := r.reg_code == reg.reg_code
def code (r : XMMRegister) : Int := r.reg_code
def high_bit (r : XMMRegister) : Int := r.reg_code >>> 3
def low_bits (r : XMMRegister) : Int := Int.land r.reg_code 0x7

end XMMRegister

def xmm0 : XMMRegister := ⟨0⟩
def xmm1 : XMMRegister := ⟨1⟩
def xmm2 : XMMRegister := ⟨2⟩
def xmm3 : XMMRegister := ⟨3⟩
def xmm4 : XMMRegister := ⟨4⟩
def xmm5 : XMMRegister := ⟨5⟩
def xmm6 : XMMRegister := ⟨6⟩
def xmm7 : XMMRegister := ⟨7⟩
def xmm8 : XMMRegister := ⟨8⟩
def xmm9 : XMMRegister := ⟨9⟩
def xmm10 : XMMRegister := ⟨10⟩
def xmm11 : XMMRegister := ⟨11⟩
def xmm12 : XMMRegister := ⟨12⟩
def xmm13 : XMMRegister := ⟨13⟩
def xmm14 : XMMRegister := ⟨14⟩
def xmm15 : XMMRegister := ⟨15⟩
def no_xmm_reg : XMMRegister := ⟨XMMRegister.kCode_no_reg⟩

/-- `struct YMMRegister`. -/
structure YMMRegister where
  reg_code : Int
deriving DecidableEq, Repr

namespace YMMRegister

def kAfterLast : Int := 16
def kCode_no_reg : Int := -1
def kMaxNumRegisters : Int := kAfterLast

def from_code (code : Int) : YMMRegister := ⟨code⟩
def is_valid (r : YMMRegister) : Bool :=
  decide (0 ≤ r.reg_code) && decide (r.reg_code < kMaxNumRegisters)
def is (r reg : YMMRegister) : Bool := r.reg_code == reg.reg_code
def xmm (r : YMMRegister) : XMMRegister := ⟨r.reg_code⟩
def code (r : YMMRegister) : Int := r.reg_code
def high_bit (r : YMMRegister) : Int := r.reg_code >>> 3
def low_bits (r : YMMRegister) : Int := Int.land r.reg_code 0x7

end YMMRegister

def ymm0 : YMMRegister := ⟨0⟩
def ymm1 : YMMRegister := ⟨1⟩
def ymm2 : YMMRegister := ⟨2⟩
def ymm3 : YMMRegister := ⟨3⟩
def ymm4 : YMMRegister := ⟨4⟩
def ymm5 : YMMRegister := ⟨5⟩
def ymm6 : YMMRegister := ⟨6⟩
def ymm7 : YMMRegister := ⟨7⟩
def ymm8 : YMMRegister := ⟨8⟩
def ymm9 : YMMRegister := ⟨9⟩
def ymm10 : YMMRegister := ⟨10⟩
def ymm11 : YMMRegister := ⟨11⟩
def ymm12 : YMMRegister := ⟨12⟩
def ymm13 : YMMRegister := ⟨13⟩
def ymm14 : YMMRegister := ⟨14⟩
def ymm15 : YMMRegister := ⟨15⟩
def no_ymm_reg : YMMRegister := ⟨YMMRegister.kCode_no_reg⟩

/-- `enum Condition`: a condition is its integer value; any value below 0
counts as `no_condition`. -/
abbrev Condition := Int

def no_condition : Condition := -1
def overflow : Condition := 0
def no_overflow : Condition := 1
def below : Condition := 2
def above_equal : Condition := 3
def equal : Condition := 4
def not_equal : Condition := 5
def below_equal : Condition := 6
def above : Condition := 7
def negative : Condition := 8
def positive : Condition := 9
def parity_even : Condition := 10
def parity_odd : Condition := 11
def less : Condition := 12
def greater_equal : Condition := 13
def less_equal : Condition := 14
def greater : Condition := 15
def always : Condition := 16
def never : Condition := 17
def carry : Condition := below
def not_carry : Condition := above_equal
def zero : Condition := equal
def not_zero : Condition := not_equal
def sign : Condition := negative
def not_sign : Condition := positive
def last_condition : Condition := greater

/-- `NegateCondition(cc)`: `cc ^ 1`. -/
def NegateCondition (cc : Condition) : Condition := Int.xor cc 1

/-- `CommuteCondition(cc)`: the `switch`, one test per `case` label in the
order of the source, `default` last. -/
def CommuteCondition (cc : Condition) : Condition :=
  if cc = below then above
  else if cc = above then below
  else if cc = above_equal then below_equal
  else if cc = below_equal then above_equal
  else if cc = less then greater
  else if cc = greater then less
  else if cc = greater_equal then less_equal
  else if cc = less_equal then greater_equal
  else cc

/-! ## Client call sequences -/

/-- One call of the public interface of `CPU`. -/
inductive Call where
  | Probe
  | SupportedFeatures
  | Enabled (f : CpuFeature)
  | Enable (f : CpuFeature)
  | Disable (f : CpuFeature)
  | CacheLineSize
  | VZeroNeeded
deriving DecidableEq, Repr

/-- Whether the call is one of `Probe`, `SupportedFeatures`, `Enabled`,
`CacheLineSize`, `VZeroNeeded`. -/
def Call.isQuery : Call → Bool
  | .Enable _ => false
  | .Disable _ => false
  | _ => true

/-- The state after one call. -/
def Call.run (pf : Platform) : Call → World → World
  | .Probe, w => CPU.Probe pf w
  | .SupportedFeatures, w => (CPU.SupportedFeatures pf w).2
  | .Enabled f, w => (CPU.Enabled pf f w).2
  | .Enable f, w => CPU.Enable pf f w
  | .Disable f, w => CPU.Disable pf f w
  | .CacheLineSize, w => (CPU.CacheLineSize pf w).2
  | .VZeroNeeded, w => (CPU.VZeroNeeded pf w).2

/-- The state after a sequence of calls, made in order. -/
def runCalls (pf : Platform) : List Call → World → World
  | [], w => w
  | c :: cs, w => runCalls pf cs (c.run pf w)

/-! ## Derived descriptions used in the proofs -/

namespace ProcessorInformation

/-- Every field of the constructed object written directly as a function of the
`cpuid` results; `construct_eq_closedForm` proves it equal to `construct`. -/
def closedForm (hw : Hardware) : ProcessorInformation :=
  let i0 := cpuid_words hw 0
  let i1 := cpuid_words hw 1
  let i7 := cpuid_words hw 7
  let e0 := cpuid_words hw 0x80000000
  let e1 := cpuid_words hw 0x80000001
  let e5 := cpuid_words hw 0x80000005
  let l1 : Bool := decide (0 < i0.w0)
  let l7 : Bool := decide (7 ≤ i0.w0)
  let ex : Bool := decide (0x80000000 < e0.w0)
  let vendor_ := bytesLE i0.w1 ++ bytesLE i0.w3 ++ bytesLE i0.w2 ++ [0]
  let family_ := if l1 then sar32 i1.w0 8 &&& 0xf else 0
  let model_ := if l1 then wrap32 ((sar32 i1.w0 4 &&& 0xf) + (sar32 i1.w0 12 &&& 0xf0)) else 0
  { vendor_ := vendor_,
    brand_ := if ex then compactBrand (rawBrand (cpuid_words hw 0x80000002)
        (cpuid_words hw 0x80000003) (cpuid_words hw 0x80000004)) else Unknown,
    stepping_ := if l1 then i1.w0 &&& 0xf else 0,
    model_ := model_,
    ext_model_ := if l1 then sar32 i1.w0 16 &&& 0xf else 0,
    family_ := family_,
    ext_family_ := if l1 then sar32 i1.w0 20 &&& 0xff else 0,
    type_ := if l1 then sar32 i1.w0 12 &&& 0x3 else 0,
    cache_line_size_ :=
      if strcmp_eq vendor_ GenuineIntel then wrap32 ((sar32 i1.w1 8 &&& 0xff) * 8)
      else if strcmp_eq vendor_ AuthenticAMD then e5.w2 &&& 0xff
      else 64,
    has_fpu_ := l1 && ((i1.w3 &&& 0x00000001) != 0),
    has_cmov_ := l1 && ((i1.w3 &&& 0x00008000) != 0),
    has_sahf_ := ex && ((e1.w2 &&& 0x00000001) != 0),
    has_mmx_ := l1 && ((i1.w3 &&& 0x00800000) != 0),
    has_sse_ := l1 && ((i1.w3 &&& 0x02000000) != 0),
    has_sse2_ := l1 && ((i1.w3 &&& 0x04000000) != 0),
    has_sse3_ := l1 && ((i1.w2 &&& 0x00000001) != 0),
    has_ssse3_ := l1 && ((i1.w2 &&& 0x00000200) != 0),
    has_sse41_ := l1 && ((i1.w2 &&& 0x00080000) != 0),
    has_sse42_ := l1 && ((i1.w2 &&& 0x00100000) != 0),
    has_f16c_ := l1 && ((i1.w2 &&& 0x20000000) != 0),
    has_osxsave_ := l1 && ((i1.w2 &&& 0x08000000) != 0),
    has_avx_ := l1 && ((i1.w2 &&& 0x10000000) != 0),
    has_avx2_ := l7 && ((i7.w1 &&& 0x00000020) != 0),
    has_fma3_ := l1 && ((i1.w2 &&& 0x00001000) != 0),
    has_bmi1_ := l7 && ((i7.w1 &&& 0x00000008) != 0),
    has_bmi2_ := l7 && ((i7.w1 &&& 0x00000100) != 0),
    has_lzcnt_ := ex && ((e1.w2 &&& 0x00000020) != 0),
    has_popcnt_ := l1 && ((i1.w2 &&& 0x00800000) != 0),
    has_zero_idiom_ := decide (0x062A ≤ (wrap32 (family_ <<< 8) ||| model_)),
    has_one_idiom_ := decide (0x065E ≤ (wrap32 (family_ <<< 8) ||| model_)) }

end ProcessorInformation

/-! ## Descriptions of the brand string -/

/-- The non-empty maximal space-free pieces of a byte string, in order. -/
def brandWords (raw : List Nat) : List (List Nat) :=
  (raw.splitOn 32).filter (fun w => !w.isEmpty)

/-- The space-free pieces joined by single spaces: leading and trailing spaces
are gone and every run of spaces between two pieces is one space. -/
def joinedBrand (raw : List Nat) : List Nat := [32].intercalate (brandWords raw)

/-- Every maximal run of consecutive spaces replaced by exactly one space (a
space is dropped exactly when the next byte is a space). -/
def collapseRuns : List Nat → List Nat
  | [] => []
  | [c] => [c]
  | c :: d :: rest =>
    if c == 32 && d == 32 then collapseRuns (d :: rest) else c :: collapseRuns (d :: rest)

/-- The raw string with all leading spaces removed and every maximal run of
consecutive spaces, a final one included, replaced by exactly one space. -/
def collapsedBrand (raw : List Nat) : List Nat :=
  collapseRuns (raw.dropWhile (fun c => c == 32))

/-! ## Concrete processors -/

/-- A processor answering like an Intel Skylake part: vendor `GenuineIntel`,
22 basic leaves, leaf-1 `edx = 0x06800001`, OS support for AVX state. -/
def mockSkylake : Hardware where
  cpuid := fun leaf _ =>
    if leaf = 0 then ⟨0x16, 0x756E6547, 0x6C65746E, 0x49656E69⟩
    else if leaf = 1 then ⟨0x000506E3, 0x00100800, 0x38981201, 0x06800001⟩
    else if leaf = 7 then ⟨0, 0x128, 0, 0⟩
    else if leaf = 0x80000000 then ⟨0x80000008, 0, 0, 0⟩
    else if leaf = 0x80000001 then ⟨0, 0, 0x21, 0⟩
    else ⟨0, 0, 0, 0⟩
  xgetbv := fun _ => (7, 0)

/-- A processor answering with vendor `AuthenticAMD` and a 64-byte line in
leaf `0x80000005`. -/
def mockAMD : Hardware where
  cpuid := fun leaf _ =>
    if leaf = 0 then ⟨0xD, 0x68747541, 0x444D4163, 0x69746E65⟩
    else if leaf = 1 then ⟨0x00800F11, 0x00100800, 0, 0⟩
    else if leaf = 0x80000000 then ⟨0x8000001F, 0, 0, 0⟩
    else if leaf = 0x80000005 then ⟨0, 0, 0x40020140, 0⟩
    else ⟨0, 0, 0, 0⟩
  xgetbv := fun _ => (0, 0)

/-- A processor whose `cpuid` returns zero for every leaf. -/
def mockZero : Hardware where
  cpuid := fun _ _ => ⟨0, 0, 0, 0⟩
  xgetbv := fun _ => (0, 0)

/-- A processor with vendor `GenuineIntel` whose leaf 0 reports maximum basic
leaf 0 and whose leaf `0x80000000` reports no extended leaf. -/
def mockIntelLeaf0Only : Hardware where
  cpuid := fun leaf _ =>
    if leaf = 0 then ⟨0, 0x756E6547, 0x6C65746E, 0x49656E69⟩
    else ⟨0, 0, 0, 0⟩
  xgetbv := fun _ => (0, 0)

/-- A processor with vendor `AuthenticAMD` whose leaf `0x80000000` reports
`0x80000001` as the maximum extended leaf. -/
def mockAmdExt1 : Hardware where
  cpuid := fun leaf _ =>
    if leaf = 0 then ⟨1, 0x68747541, 0x444D4163, 0x69746E65⟩
    else if leaf = 0x80000000 then ⟨0x80000001, 0, 0, 0⟩
    else ⟨0, 0, 0, 0⟩
  xgetbv := fun _ => (0, 0)

/-- A processor whose brand leaves spell the 48 bytes
`"  Intel(R)   Xeon(R) CPU    E5  @ 2.40GHz       "`. -/
def mockXeon : Hardware where
  cpuid := fun leaf _ =>
    if leaf = 0 then ⟨0xD, 0x756E6547, 0x6C65746E, 0x49656E69⟩
    else if leaf = 0x80000000 then ⟨0x80000004, 0, 0, 0⟩
    else if leaf = 0x80000002 then ⟨0x6e492020, 0x286c6574, 0x20202952, 0x6f655820⟩
    else if leaf = 0x80000003 then ⟨0x2952286e, 0x55504320, 0x20202020, 0x20203545⟩
    else if leaf = 0x80000004 then ⟨0x2e322040, 0x48473034, 0x2020207a, 0x20202020⟩
    else ⟨0, 0, 0, 0⟩
  xgetbv := fun _ => (0, 0)

/-- The bytes of `"Intel(R) Xeon(R) CPU E5 @ 2.40GHz"`. -/
def xeonBrand : List Nat :=
  [73, 110, 116, 101, 108, 40, 82, 41, 32, 88, 101, 111, 110, 40, 82, 41, 32, 67, 80, 85, 32,
   69, 53, 32, 64, 32, 50, 46, 52, 48, 71, 72, 122]

/-- A processor with vendor `GenuineIntel`, maximum basic leaf 1, leaf 1
reporting SSE, SSE2, OSXSAVE and AVX and the byte field 8, and an extended-state
mask with both low state bits set. -/
def mockIntelAvx : Hardware where
  cpuid := fun leaf _ =>
    if leaf = 0 then ⟨1, 0x756E6547, 0x6C65746E, 0x49656E69⟩
    else if leaf = 1 then ⟨0x000206A7, 0x00100800, 0x18000000, 0x06000000⟩
    else ⟨0, 0, 0, 0⟩
  xgetbv := fun _ => (7, 0)

/-- As `mockIntelAvx`, but leaf 0 reports maximum basic leaf 0. -/
def mockIntelAvxLeaf0 : Hardware where
  cpuid := fun leaf _ =>
    if leaf = 0 then ⟨0, 0x756E6547, 0x6C65746E, 0x49656E69⟩
    else if leaf = 1 then ⟨0x000206A7, 0x00100800, 0x18000000, 0x06000000⟩
    else ⟨0, 0, 0, 0⟩
  xgetbv := fun _ => (7, 0)

/-- A processor whose leaf-1 identification word has every bit set. -/
def mockSignBit : Hardware where
  cpuid := fun leaf _ =>
    if leaf = 0 then ⟨1, 0, 0, 0⟩
    else if leaf = 1 then ⟨0xFFFFFFFF, 0, 0, 0⟩
    else ⟨0, 0, 0, 0⟩
  xgetbv := fun _ => (0, 0)

/-- A processor whose leaf 1 reports the AVX bit but not OSXSAVE. -/
def mockAvxNoOsxsave : Hardware where
  cpuid := fun leaf _ =>
    if leaf = 0 then ⟨1, 0, 0, 0⟩
    else if leaf = 1 then ⟨0, 0, 0x10000000, 0⟩
    else ⟨0, 0, 0, 0⟩
  xgetbv := fun _ => (0, 0)

end sling.jit

/-! # Theorems -/

namespace sling.jit

/-! ## Bit-level lemmas -/

theorem bit_eq (f : CpuFeature) : bit f = 2 ^ f.toNat := by
  cases f <;> rfl

theorem toNat_lt (f : CpuFeature) : f.toNat < 32 := by
  cases f <;> decide

theorem toNat_injective {f g : CpuFeature} (h : f.toNat = g.toNat) : f = g := by
  cases f <;> cases g <;> first | rfl | (exact absurd h (by decide))

theorem and_bit_ne_zero (x : Nat) (f : CpuFeature) :
    ((x &&& bit f) != 0) = x.testBit f.toNat := by
  rw [bit_eq, Nat.and_two_pow]
  cases h : x.testBit f.toNat <;> simp

theorem not32_bit_testBit (f : CpuFeature) (i : Nat) :
    (not32 (bit f)).testBit i = (decide (i < 32) && !decide (f.toNat = i)) := by
  have h : (0xFFFFFFFF : Nat) = 2 ^ 32 - 1 := by norm_num
  have hb : wrap32 (bit f) = 2 ^ f.toNat := by
    cases f <;> rfl
  unfold not32
  rw [hb, h, Nat.testBit_xor, Nat.testBit_two_pow_sub_one, Nat.testBit_two_pow]
  by_cases hfi : f.toNat = i
  · subst hfi
    simp [toNat_lt f]
  · simp [hfi]

namespace CPU

theorem copyFeature_testBit (b : Bool) (f : CpuFeature) (w : World) (i : Nat) :
    (copyFeature b f w).cpu.features.testBit i =
      (w.cpu.features.testBit i || (b && decide (f.toNat = i))) := by
  unfold copyFeature
  cases b <;> simp [bit_eq, Nat.testBit_two_pow]

theorem avxBlock_testBit (hw : Hardware) (cpu : ProcessorInformation) (w : World) (i : Nat) :
    (avxBlock hw cpu w).cpu.features.testBit i =
      (w.cpu.features.testBit i ||
        (cpu.has_osxsave && os_has_avx_support hw &&
          (decide (8 = i) || (cpu.has_fma3 && decide (10 = i)) ||
            (cpu.has_avx2 && decide (9 = i))))) := by
  unfold avxBlock
  cases h1 : cpu.has_osxsave <;> cases h2 : os_has_avx_support hw <;>
    simp [copyFeature_testBit, CpuFeature.toNat, Bool.or_assoc]

theorem vzeroBlock_features (b : Bool) (c : ProcessorInformation) (v : World) :
    (vzeroBlock b c v).cpu.features = v.cpu.features := by
  unfold vzeroBlock
  cases c.has_avx <;> cases b <;> rfl

theorem vzeroBlock_vzero (b : Bool) (c : ProcessorInformation) (v : World) :
    (vzeroBlock b c v).cpu.vzero_needed = (!b && c.has_avx) := by
  unfold vzeroBlock
  cases c.has_avx <;> cases b <;> rfl

theorem vzeroBlock_cache_line_size (b : Bool) (c : ProcessorInformation) (v : World) :
    (vzeroBlock b c v).cpu.cache_line_size = v.cpu.cache_line_size := by
  unfold vzeroBlock
  cases c.has_avx <;> cases b <;> rfl

/-- Bit `i` of the feature set after `Initialize`, for an arbitrary prior set. -/
theorem Initialize_testBit (pf : Platform) (w : World) (i : Nat) :
    (Initialize pf w).cpu.features.testBit i =
      (let cpu := ProcessorInformation.construct pf.hw
       w.cpu.features.testBit i ||
        (cpu.has_mmx && decide (0 = i)) || (cpu.has_sse && decide (1 = i)) ||
        (cpu.has_sse2 && decide (2 = i)) || (cpu.has_sse3 && decide (3 = i)) ||
        (cpu.has_ssse3 && decide (4 = i)) || (cpu.has_sse41 && decide (5 = i)) ||
        (cpu.has_f16c && decide (7 = i)) || (cpu.has_sahf && decide (11 = i)) ||
        (cpu.has_osxsave && os_has_avx_support pf.hw &&
          (decide (8 = i) || (cpu.has_fma3 && decide (10 = i)) ||
            (cpu.has_avx2 && decide (9 = i)))) ||
        (cpu.has_bmi1 && decide (12 = i)) || (cpu.has_bmi2 && decide (13 = i)) ||
        (cpu.has_lzcnt && decide (14 = i)) || (cpu.has_popcnt && decide (15 = i)) ||
        (cpu.has_zero_idiom && decide (16 = i)) || (cpu.has_one_idiom && decide (17 = i))) := by
  simp only [Initialize, vzeroBlock_features, copyFeature_testBit, avxBlock_testBit,
    CpuFeature.toNat]

theorem Initialize_vzero (pf : Platform) (w : World) :
    (Initialize pf w).cpu.vzero_needed =
      (!pf.AVX_defined && (ProcessorInformation.construct pf.hw).has_avx) := by
  simp only [Initialize, vzeroBlock_vzero]

theorem Probe_initialized (pf : Platform) (w : World) :
    (Probe pf w).cpu.initialized = true := by
  unfold Probe
  by_cases h : w.cpu.initialized = true <;> simp [h]

theorem Probe_of_initialized (pf : Platform) (w : World) (h : w.cpu.initialized = true) :
    Probe pf w = w := by
  simp [Probe, h]

theorem Probe_Probe (pf : Platform) (w : World) : Probe pf (Probe pf w) = Probe pf w :=
  Probe_of_initialized pf _ (Probe_initialized pf w)

theorem Probe_start (pf : Platform) :
    Probe pf World.start =
      { Initialize pf World.start with
        cpu := { (Initialize pf World.start).cpu with initialized := true } } := by
  simp [Probe, World.start]

end CPU

namespace ProcessorInformation

theorem idiomBlock_self (fr : Frame) :
    (idiomBlock fr).self =
      { fr.self with
        has_zero_idiom_ := fr.self.has_zero_idiom_ || decide (0x062A ≤ fr.self.family_model),
        has_one_idiom_ := fr.self.has_one_idiom_ || decide (0x065E ≤ fr.self.family_model) } := by
  unfold idiomBlock
  simp only [family_model]
  by_cases hz : 0x062A ≤ (wrap32 (fr.self.family_ <<< 8) ||| fr.self.model_) <;>
  by_cases ho : 0x065E ≤ (wrap32 (fr.self.family_ <<< 8) ||| fr.self.model_) <;>
  simp [hz, ho]

theorem cacheLineBlock_self (hw : Hardware) (fr : Frame) :
    (cacheLineBlock hw fr).self =
      { fr.self with
        cache_line_size_ :=
          if strcmp_eq fr.self.vendor_ GenuineIntel then
            wrap32 ((sar32 (cpuid_words hw 1).w1 8 &&& 0xff) * 8)
          else if strcmp_eq fr.self.vendor_ AuthenticAMD then
            (cpuid_words hw 0x80000005).w2 &&& 0xff
          else 64 } := by
  unfold cacheLineBlock
  by_cases hi : strcmp_eq fr.self.vendor_ GenuineIntel = true <;>
  by_cases ha : strcmp_eq fr.self.vendor_ AuthenticAMD = true <;>
  simp [hi, ha, __cpuid]

/-- The constructor computes exactly the closed form. -/
theorem construct_eq_closedForm (hw : Hardware) : construct hw = closedForm hw := by
  unfold construct constructFrame closedForm
  rw [cacheLineBlock_self, idiomBlock_self]
  by_cases h1 : 0 < (cpuid_words hw 0).w0 <;>
  by_cases h7 : 7 ≤ (cpuid_words hw 0).w0 <;>
  by_cases hx : 0x80000000 < (cpuid_words hw 0x80000000).w0 <;>
  simp [basicBlock, leaf1Block, leaf7Block, extIdsBlock, brandBlock, extFeatureBlock, __cpuid,
      family_model, h1, h7, hx]

end ProcessorInformation

/-! ## Further lemmas -/

theorem and_pow_ne_zero (x k : Nat) : ((x &&& 2 ^ k) != 0) = x.testBit k := by
  rw [Nat.and_two_pow]
  cases h : x.testBit k <;> simp

theorem and_255 (x : Nat) : x &&& 0xff = x % 256 := by
  rw [show (0xff : Nat) = 2 ^ 8 - 1 by norm_num, Nat.and_pow_two_sub_one_eq_mod]

theorem wrap32_lt (x : Nat) : wrap32 x < 2 ^ 32 := Nat.mod_lt _ (by norm_num)

/-- The low byte of the arithmetic shift by 8 is byte 1 of the pattern. -/
theorem sar32_8_mod (w : Nat) (hw : w < 2 ^ 32) : sar32 w 8 % 256 = w / 256 % 256 := by
  unfold sar32 toInt32 ofInt32
  rw [Int.shiftRight_eq_div_pow]
  split <;> omega

namespace ProcessorInformation

/-- `strcmp` against a literal without interior NUL decides equality of the C strings. -/
theorem strcmp_eq_iff (l s : List Nat) (hs : ∀ c ∈ s, c ≠ 0) :
    strcmp_eq (l ++ [0]) (s ++ [0]) = true ↔ cstr (l ++ [0]) = s := by
  induction l generalizing s with
  | nil =>
    cases s with
    | nil => simp [strcmp_eq, cstr]
    | cons b bs =>
      have hb : b ≠ 0 := hs b (by simp)
      simp [strcmp_eq, cstr, Ne.symm hb]
  | cons a l ih =>
    cases s with
    | nil =>
      by_cases ha : a = 0 <;> simp [strcmp_eq, cstr, ha]
    | cons b bs =>
      have hb : b ≠ 0 := hs b (by simp)
      have hbs : ∀ c ∈ bs, c ≠ 0 := fun c hc => hs c (by simp [hc])
      have ih' := ih bs hbs
      by_cases hab : a = b
      · subst hab
        simp [strcmp_eq, cstr, hb] at ih' ⊢
        exact ih'
      · by_cases ha : a = 0
        · subst ha
          simp [strcmp_eq, cstr, Ne.symm hb]
        · simp [strcmp_eq, cstr, hab, ha]

theorem construct_vendor_ (hw : Hardware) :
    (construct hw).vendor_ = (bytesLE (cpuid_words hw 0).w1 ++ bytesLE (cpuid_words hw 0).w3 ++
      bytesLE (cpuid_words hw 0).w2) ++ [0] := by
  rw [construct_eq_closedForm]
  simp [closedForm]

theorem strcmp_vendor_iff (hw : Hardware) (lit : List Nat) (hlit : cstr lit ++ [0] = lit)
    (hs : ∀ c ∈ cstr lit, c ≠ 0) :
    strcmp_eq (construct hw).vendor_ lit = true ↔ (construct hw).vendor = cstr lit := by
  have h := strcmp_eq_iff (bytesLE (cpuid_words hw 0).w1 ++ bytesLE (cpuid_words hw 0).w3 ++
      bytesLE (cpuid_words hw 0).w2) (cstr lit) hs
  rw [hlit, ← construct_vendor_] at h
  exact h

theorem construct_cache_line_size (hw : Hardware) :
    (construct hw).cache_line_size =
      if strcmp_eq (construct hw).vendor_ GenuineIntel then
        (((cpuid_words hw 1).w1 >>> 8) &&& 0xff) * 8
      else if strcmp_eq (construct hw).vendor_ AuthenticAMD then
        (cpuid_words hw 0x80000005).w2 &&& 0xff
      else 64 := by
  have h8 : wrap32 ((sar32 (cpuid_words hw 1).w1 8 &&& 0xff) * 8) =
      (((cpuid_words hw 1).w1 >>> 8) &&& 0xff) * 8 := by
    have hw1 : (cpuid_words hw 1).w1 < 2 ^ 32 := wrap32_lt _
    rw [and_255, and_255, sar32_8_mod _ hw1, Nat.shiftRight_eq_div_pow]
    unfold wrap32
    omega
  rw [← h8]
  conv_lhs => rw [construct_eq_closedForm]
  rw [construct_vendor_]
  simp [closedForm, cache_line_size]

end ProcessorInformation

theorem CPU.CacheLineSize_start (pf : Platform) :
    (CPU.CacheLineSize pf World.start).1 = (ProcessorInformation.construct pf.hw).cache_line_size := by
  simp only [CPU.CacheLineSize, CPU.Probe_start, CPU.Initialize, CPU.vzeroBlock_cache_line_size]

/-! ## The claims -/

open ProcessorInformation

/-- C1: after `CPU::Initialize` on the zero-initialised cache, the AVX bit is
set exactly when the identity reports OSXSAVE (leaf 1 supported and bit 27 of
its word 2 set) and `(xcr0 & 0x6) == 0x6`; the FMA3 bit exactly when AVX is set
and `has_fma3()`; the AVX2 bit exactly when AVX is set and `has_avx2()`. Hence
AVX is clear whenever the OS check fails, and FMA3 or AVX2 set implies AVX set. -/
theorem C1_avx_gating (pf : Platform) :
    let cpu := construct pf.hw
    let feats := (CPU.Initialize pf World.start).cpu.features
    let avx := (feats &&& bit .AVX) != 0
    let fma3 := (feats &&& bit .FMA3) != 0
    let avx2 := (feats &&& bit .AVX2) != 0
    let osOk := (_xgetbv pf.hw 0 &&& 0x6) == 0x6
    (cpu.has_osxsave =
      (decide (1 ≤ (cpuid_words pf.hw 0).w0) && (cpuid_words pf.hw 1).w2.testBit 27)) ∧
    (avx = (cpu.has_osxsave && osOk)) ∧
    (fma3 = (avx && cpu.has_fma3)) ∧
    (avx2 = (avx && cpu.has_avx2)) ∧
    (osOk = false → avx = false) ∧
    (fma3 = true ∨ avx2 = true → avx = true) := by
  refine ⟨?_, ?_⟩
  · rw [construct_eq_closedForm]
    simp only [closedForm, has_osxsave]
    rw [show (0x08000000 : Nat) = 2 ^ 27 by norm_num, and_pow_ne_zero]
    rfl
  · simp only [and_bit_ne_zero, CPU.Initialize_testBit, CpuFeature.toNat, World.start,
      os_has_avx_support]
    simp
    tauto

/-- C2, as stated, fails: on a processor whose leaf 1 reports the AVX bit but
not OSXSAVE, in a build without `__AVX__`, `VZeroNeeded()` is true although
`Enabled(AVX)` is false. -/
theorem C2_counterexample :
    (⟨mockAvxNoOsxsave, false⟩ : Platform).AVX_defined = false ∧
    (CPU.VZeroNeeded ⟨mockAvxNoOsxsave, false⟩ World.start).1 = true ∧
    (CPU.Enabled ⟨mockAvxNoOsxsave, false⟩ .AVX
      (CPU.Probe ⟨mockAvxNoOsxsave, false⟩ World.start)).1 = false := by
  decide

/-- C2, amended: after initialization `VZeroNeeded()` is true exactly when the
build does not define `__AVX__` and the identity's raw hardware AVX flag
`has_avx()` is set, that is, leaf 1 is supported and bit 28 of its word 2 is
set; in a build that defines `__AVX__` it is false. -/
theorem C2_vzero_needed_raw_avx (pf : Platform) :
    (CPU.VZeroNeeded pf World.start).1 = (!pf.AVX_defined && (construct pf.hw).has_avx) ∧
    (construct pf.hw).has_avx =
      (decide (1 ≤ (cpuid_words pf.hw 0).w0) && (cpuid_words pf.hw 1).w2.testBit 28) := by
  constructor
  · simp only [CPU.VZeroNeeded, CPU.Probe_start, CPU.Initialize_vzero]
  · rw [construct_eq_closedForm]
    simp only [closedForm, has_avx]
    rw [show (0x10000000 : Nat) = 2 ^ 28 by norm_num, and_pow_ne_zero]
    rfl

/-- C3: for every feature, every prior state of the cache (initialised or
not) and every hardware, `Enabled(f)` is true after `Enable(f)` and false after
`Disable(f)`. -/
theorem C3_enable_disable_roundtrip (pf : Platform) (w : World) (f : CpuFeature) :
    (CPU.Enabled pf f (CPU.Enable pf f w)).1 = true ∧
    (CPU.Enabled pf f (CPU.Disable pf f w)).1 = false := by
  have hE : (CPU.Enable pf f w).cpu.initialized = true := CPU.Probe_initialized pf w
  have hD : (CPU.Disable pf f w).cpu.initialized = true := CPU.Probe_initialized pf w
  constructor
  · simp only [CPU.Enabled, CPU.Probe_of_initialized pf _ hE, and_bit_ne_zero]
    simp [CPU.Enable, bit_eq, Nat.testBit_two_pow]
  · simp only [CPU.Enabled, CPU.Probe_of_initialized pf _ hD, and_bit_ne_zero]
    simp [CPU.Disable, not32_bit_testBit]

/-- C5: `Enable(f)` and `Disable(f)` change a single bit: for every state
(initialised or not) and features `f ≠ g`, `Enabled(g)`, `CacheLineSize()` and
`VZeroNeeded()` return the same value before and after. -/
theorem C5_single_bit_frame (pf : Platform) (w : World) (f g : CpuFeature) (hfg : f ≠ g) :
    (CPU.Enabled pf g (CPU.Enable pf f w)).1 = (CPU.Enabled pf g w).1 ∧
    (CPU.Enabled pf g (CPU.Disable pf f w)).1 = (CPU.Enabled pf g w).1 ∧
    (CPU.CacheLineSize pf (CPU.Enable pf f w)).1 = (CPU.CacheLineSize pf w).1 ∧
    (CPU.CacheLineSize pf (CPU.Disable pf f w)).1 = (CPU.CacheLineSize pf w).1 ∧
    (CPU.VZeroNeeded pf (CPU.Enable pf f w)).1 = (CPU.VZeroNeeded pf w).1 ∧
    (CPU.VZeroNeeded pf (CPU.Disable pf f w)).1 = (CPU.VZeroNeeded pf w).1 := by
  have hE : (CPU.Enable pf f w).cpu.initialized = true := CPU.Probe_initialized pf w
  have hD : (CPU.Disable pf f w).cpu.initialized = true := CPU.Probe_initialized pf w
  have hne : ¬ f.toNat = g.toNat := fun h => hfg (toNat_injective h)
  have hg := toNat_lt g
  simp only [CPU.Enabled, CPU.CacheLineSize, CPU.VZeroNeeded, CPU.Probe_of_initialized pf _ hE,
    CPU.Probe_of_initialized pf _ hD, and_bit_ne_zero]
  simp [CPU.Enable, CPU.Disable, not32_bit_testBit, Nat.testBit_two_pow, hne, hg]
  simp [bit_eq, Nat.testBit_two_pow, hne]

/-- C5 at a concrete input: on the Skylake-like processor, started from the
initialised state, disabling or enabling AVX leaves `Enabled(SSE)`,
`CacheLineSize()` and `VZeroNeeded()` as they were. -/
theorem C5_single_bit_frame_witness :
    CpuFeature.AVX ≠ CpuFeature.SSE ∧
    ((CPU.Enabled ⟨mockSkylake, false⟩ .SSE
        (CPU.Enable ⟨mockSkylake, false⟩ .AVX (CPU.Probe ⟨mockSkylake, false⟩ World.start))).1 =
      (CPU.Enabled ⟨mockSkylake, false⟩ .SSE (CPU.Probe ⟨mockSkylake, false⟩ World.start)).1 ∧
    (CPU.Enabled ⟨mockSkylake, false⟩ .SSE
        (CPU.Disable ⟨mockSkylake, false⟩ .AVX (CPU.Probe ⟨mockSkylake, false⟩ World.start))).1 =
      (CPU.Enabled ⟨mockSkylake, false⟩ .SSE (CPU.Probe ⟨mockSkylake, false⟩ World.start)).1 ∧
    (CPU.CacheLineSize ⟨mockSkylake, false⟩
        (CPU.Enable ⟨mockSkylake, false⟩ .AVX (CPU.Probe ⟨mockSkylake, false⟩ World.start))).1 =
      (CPU.CacheLineSize ⟨mockSkylake, false⟩ (CPU.Probe ⟨mockSkylake, false⟩ World.start)).1 ∧
    (CPU.CacheLineSize ⟨mockSkylake, false⟩
        (CPU.Disable ⟨mockSkylake, false⟩ .AVX (CPU.Probe ⟨mockSkylake, false⟩ World.start))).1 =
      (CPU.CacheLineSize ⟨mockSkylake, false⟩ (CPU.Probe ⟨mockSkylake, false⟩ World.start)).1 ∧
    (CPU.VZeroNeeded ⟨mockSkylake, false⟩
        (CPU.Enable ⟨mockSkylake, false⟩ .AVX (CPU.Probe ⟨mockSkylake, false⟩ World.start))).1 =
      (CPU.VZeroNeeded ⟨mockSkylake, false⟩ (CPU.Probe ⟨mockSkylake, false⟩ World.start)).1 ∧
    (CPU.VZeroNeeded ⟨mockSkylake, false⟩
        (CPU.Disable ⟨mockSkylake, false⟩ .AVX (CPU.Probe ⟨mockSkylake, false⟩ World.start))).1 =
      (CPU.VZeroNeeded ⟨mockSkylake, false⟩ (CPU.Probe ⟨mockSkylake, false⟩ World.start)).1) :=
  ⟨by decide,
   C5_single_bit_frame ⟨mockSkylake, false⟩ (CPU.Probe ⟨mockSkylake, false⟩ World.start)
     .AVX .SSE (by decide)⟩

/-- C6: every listed boolean of `ProcessorInformation` equals its documented
bit: when leaf 1 is supported, the masks of leaf-1 word 3 and word 2; when the
maximum basic leaf is at least 7, the masks of leaf-7 word 1; when extended
leaves exist, the masks of leaf `0x80000001` word 2. -/
theorem C6_bit_mapping (hw : Hardware) :
    (1 ≤ (cpuid_words hw 0).w0 →
      (construct hw).has_fpu = (((cpuid_words hw 1).w3 &&& 0x00000001) != 0) ∧
      (construct hw).has_cmov = (((cpuid_words hw 1).w3 &&& 0x00008000) != 0) ∧
      (construct hw).has_mmx = (((cpuid_words hw 1).w3 &&& 0x00800000) != 0) ∧
      (construct hw).has_sse = (((cpuid_words hw 1).w3 &&& 0x02000000) != 0) ∧
      (construct hw).has_sse2 = (((cpuid_words hw 1).w3 &&& 0x04000000) != 0) ∧
      (construct hw).has_sse3 = (((cpuid_words hw 1).w2 &&& 0x00000001) != 0) ∧
      (construct hw).has_ssse3 = (((cpuid_words hw 1).w2 &&& 0x00000200) != 0) ∧
      (construct hw).has_fma3 = (((cpuid_words hw 1).w2 &&& 0x00001000) != 0) ∧
      (construct hw).has_sse41 = (((cpuid_words hw 1).w2 &&& 0x00080000) != 0) ∧
      (construct hw).has_sse42 = (((cpuid_words hw 1).w2 &&& 0x00100000) != 0) ∧
      (construct hw).has_popcnt = (((cpuid_words hw 1).w2 &&& 0x00800000) != 0) ∧
      (construct hw).has_osxsave = (((cpuid_words hw 1).w2 &&& 0x08000000) != 0) ∧
      (construct hw).has_avx = (((cpuid_words hw 1).w2 &&& 0x10000000) != 0) ∧
      (construct hw).has_f16c = (((cpuid_words hw 1).w2 &&& 0x20000000) != 0)) ∧
    (7 ≤ (cpuid_words hw 0).w0 →
      (construct hw).has_bmi1 = (((cpuid_words hw 7).w1 &&& 0x08) != 0) ∧
      (construct hw).has_avx2 = (((cpuid_words hw 7).w1 &&& 0x20) != 0) ∧
      (construct hw).has_bmi2 = (((cpuid_words hw 7).w1 &&& 0x100) != 0)) ∧
    (0x80000000 < (cpuid_words hw 0x80000000).w0 →
      (construct hw).has_sahf = (((cpuid_words hw 0x80000001).w2 &&& 0x1) != 0) ∧
      (construct hw).has_lzcnt = (((cpuid_words hw 0x80000001).w2 &&& 0x20) != 0)) := by
  rw [construct_eq_closedForm]
  refine ⟨fun h => ?_, fun h => ?_, fun h => ?_⟩
  · have h' : 0 < (cpuid_words hw 0).w0 := h
    simp [closedForm, has_fpu, has_cmov, has_mmx, has_sse, has_sse2, has_sse3, has_ssse3,
      has_fma3, has_sse41, has_sse42, has_popcnt, has_osxsave, has_avx, has_f16c, h']
  · simp [closedForm, has_bmi1, has_avx2, has_bmi2, h]
  · simp [closedForm, has_sahf, has_lzcnt, h]

/-- C6 at a concrete input: with leaf-1 word 3 equal to `0x06800001`,
`has_fpu`, `has_mmx`, `has_sse`, `has_sse2` are true and `has_cmov` is false;
the three guards of the theorem hold on this processor. -/
theorem C6_bit_mapping_witness :
    (1 ≤ (cpuid_words mockSkylake 0).w0 ∧ (cpuid_words mockSkylake 1).w3 = 0x06800001 ∧
      (construct mockSkylake).has_fpu = true ∧ (construct mockSkylake).has_mmx = true ∧
      (construct mockSkylake).has_sse = true ∧ (construct mockSkylake).has_sse2 = true ∧
      (construct mockSkylake).has_cmov = false) ∧
    (construct mockSkylake).has_fpu = (((cpuid_words mockSkylake 1).w3 &&& 0x00000001) != 0) ∧
    (7 ≤ (cpuid_words mockSkylake 0).w0 ∧
      (construct mockSkylake).has_bmi1 = (((cpuid_words mockSkylake 7).w1 &&& 0x08) != 0)) ∧
    (0x80000000 < (cpuid_words mockSkylake 0x80000000).w0 ∧
      (construct mockSkylake).has_sahf =
        (((cpuid_words mockSkylake 0x80000001).w2 &&& 0x1) != 0)) :=
  ⟨by decide, ((C6_bit_mapping mockSkylake).1 (by decide)).1,
   ⟨by decide, ((C6_bit_mapping mockSkylake).2.1 (by decide)).1⟩,
   ⟨by decide, ((C6_bit_mapping mockSkylake).2.2 (by decide)).1⟩⟩

/-- C7: after `CPU::Initialize` on the zero-initialised cache, each of the bits
MMX, SSE, SSE2, SSE3, SSSE3, SSE4_1, F16C, SAHF, BMI1, BMI2, LZCNT, POPCNT,
ZEROIDIOM, ONEIDIOM equals the corresponding `ProcessorInformation` boolean,
for every hardware and so whatever the AVX / OS-support check gives. -/
theorem C7_unconditional_copies (pf : Platform) :
    let cpu := construct pf.hw
    let feats := (CPU.Initialize pf World.start).cpu.features
    ((feats &&& bit .MMX) != 0) = cpu.has_mmx ∧
    ((feats &&& bit .SSE) != 0) = cpu.has_sse ∧
    ((feats &&& bit .SSE2) != 0) = cpu.has_sse2 ∧
    ((feats &&& bit .SSE3) != 0) = cpu.has_sse3 ∧
    ((feats &&& bit .SSSE3) != 0) = cpu.has_ssse3 ∧
    ((feats &&& bit .SSE4_1) != 0) = cpu.has_sse41 ∧
    ((feats &&& bit .F16C) != 0) = cpu.has_f16c ∧
    ((feats &&& bit .SAHF) != 0) = cpu.has_sahf ∧
    ((feats &&& bit .BMI1) != 0) = cpu.has_bmi1 ∧
    ((feats &&& bit .BMI2) != 0) = cpu.has_bmi2 ∧
    ((feats &&& bit .LZCNT) != 0) = cpu.has_lzcnt ∧
    ((feats &&& bit .POPCNT) != 0) = cpu.has_popcnt ∧
    ((feats &&& bit .ZEROIDIOM) != 0) = cpu.has_zero_idiom ∧
    ((feats &&& bit .ONEIDIOM) != 0) = cpu.has_one_idiom := by
  simp only [and_bit_ne_zero, CPU.Initialize_testBit, CpuFeature.toNat, World.start]
  simp

/-- C8: the cache line size by vendor: for the vendor string `GenuineIntel` it
is `((leaf-1 word1 >> 8) & 0xff) * 8`, for `AuthenticAMD` it is
`leaf-0x80000005 word2 & 0xff`, for every other vendor string it is 64; and
`CPU::CacheLineSize()` after initialization returns this value. -/
theorem C8_cache_line_size (pf : Platform) :
    ((construct pf.hw).vendor = cstr GenuineIntel →
      (construct pf.hw).cache_line_size = (((cpuid_words pf.hw 1).w1 >>> 8) &&& 0xff) * 8) ∧
    ((construct pf.hw).vendor = cstr AuthenticAMD →
      (construct pf.hw).cache_line_size = (cpuid_words pf.hw 0x80000005).w2 &&& 0xff) ∧
    ((construct pf.hw).vendor ≠ cstr GenuineIntel → (construct pf.hw).vendor ≠ cstr AuthenticAMD →
      (construct pf.hw).cache_line_size = 64) ∧
    (CPU.CacheLineSize pf World.start).1 = (construct pf.hw).cache_line_size := by
  have hI := strcmp_vendor_iff pf.hw GenuineIntel (by decide) (by decide)
  have hA := strcmp_vendor_iff pf.hw AuthenticAMD (by decide) (by decide)
  have hne : cstr GenuineIntel ≠ cstr AuthenticAMD := by decide
  refine ⟨?_, ?_, ?_, CPU.CacheLineSize_start pf⟩
  · intro h
    rw [construct_cache_line_size, if_pos (hI.2 h)]
  · intro h
    have hnI : ¬ strcmp_eq (construct pf.hw).vendor_ GenuineIntel = true :=
      fun hc => hne ((hI.1 hc).symm.trans h)
    rw [construct_cache_line_size, if_neg hnI, if_pos (hA.2 h)]
  · intro h1 h2
    rw [construct_cache_line_size, if_neg (fun hc => h1 (hI.1 hc)),
      if_neg (fun hc => h2 (hA.1 hc))]

/-- C8 at concrete inputs: an Intel processor with byte field 8 (line size
64), an AMD processor with low byte `0x40`, and a processor with an empty
vendor string (line size 64). -/
theorem C8_cache_line_size_witness :
    ((construct mockSkylake).vendor = cstr GenuineIntel ∧
      (construct mockSkylake).cache_line_size =
        (((cpuid_words mockSkylake 1).w1 >>> 8) &&& 0xff) * 8 ∧
      (((cpuid_words mockSkylake 1).w1 >>> 8) &&& 0xff) * 8 = 64) ∧
    ((construct mockAMD).vendor = cstr AuthenticAMD ∧
      (construct mockAMD).cache_line_size = (cpuid_words mockAMD 0x80000005).w2 &&& 0xff ∧
      (cpuid_words mockAMD 0x80000005).w2 &&& 0xff = 64) ∧
    ((construct mockZero).vendor ≠ cstr GenuineIntel ∧
      (construct mockZero).vendor ≠ cstr AuthenticAMD ∧
      (construct mockZero).cache_line_size = 64) :=
  ⟨⟨by decide, (C8_cache_line_size ⟨mockSkylake, false⟩).1 (by decide), by decide⟩,
   ⟨by decide, (C8_cache_line_size ⟨mockAMD, false⟩).2.1 (by decide), by decide⟩,
   ⟨by decide, by decide,
    (C8_cache_line_size ⟨mockZero, false⟩).2.2.1 (by decide) (by decide)⟩⟩

/-! ## Call sequences and the hardware log -/

theorem Call.run_initialized (pf : Platform) (c : Call) (w : World) :
    (c.run pf w).cpu.initialized = true := by
  cases c <;> exact CPU.Probe_initialized pf w

theorem Call.run_log_of_initialized (pf : Platform) (c : Call) (w : World)
    (h : w.cpu.initialized = true) : (c.run pf w).log = w.log := by
  cases c <;>
    simp [Call.run, CPU.SupportedFeatures, CPU.Enabled, CPU.Enable, CPU.Disable,
      CPU.CacheLineSize, CPU.VZeroNeeded, CPU.Probe_of_initialized pf w h]

theorem Call.run_log (pf : Platform) (c : Call) (w : World) :
    (c.run pf w).log = (CPU.Probe pf w).log := by
  cases c <;> rfl

theorem Call.run_query_of_initialized (pf : Platform) (c : Call) (w : World)
    (h : w.cpu.initialized = true) (hq : c.isQuery = true) : c.run pf w = w := by
  cases c <;>
    first
    | (simp [Call.isQuery] at hq; done)
    | simp [Call.run, CPU.SupportedFeatures, CPU.Enabled, CPU.CacheLineSize, CPU.VZeroNeeded,
        CPU.Probe_of_initialized pf w h]

theorem Call.run_query (pf : Platform) (c : Call) (w : World) (hq : c.isQuery = true) :
    c.run pf w = CPU.Probe pf w := by
  cases c <;>
    first
    | (simp [Call.isQuery] at hq; done)
    | rfl

theorem runCalls_log_of_initialized (pf : Platform) (cs : List Call) (w : World)
    (h : w.cpu.initialized = true) : (runCalls pf cs w).log = w.log := by
  induction cs generalizing w with
  | nil => rfl
  | cons c cs ih =>
    simp only [runCalls]
    rw [ih _ (Call.run_initialized pf c w), Call.run_log_of_initialized pf c w h]

theorem runCalls_queries_of_initialized (pf : Platform) (cs : List Call) (w : World)
    (h : w.cpu.initialized = true) (hq : ∀ c ∈ cs, c.isQuery = true) : runCalls pf cs w = w := by
  induction cs generalizing w with
  | nil => rfl
  | cons c cs ih =>
    simp only [runCalls]
    rw [Call.run_query_of_initialized pf c w h (hq c (by simp))]
    exact ih w h (fun d hd => hq d (by simp [hd]))

theorem runCalls_queries_Probe (pf : Platform) (cs : List Call) (w : World)
    (hq : ∀ c ∈ cs, c.isQuery = true) :
    CPU.Probe pf (runCalls pf cs w) = CPU.Probe pf w := by
  cases cs with
  | nil => rfl
  | cons c cs =>
    simp only [runCalls]
    rw [Call.run_query pf c w (hq c (by simp)),
      runCalls_queries_of_initialized pf cs _ (CPU.Probe_initialized pf w)
        (fun d hd => hq d (by simp [hd])), CPU.Probe_Probe]

theorem runCalls_start_log (pf : Platform) (cs : List Call) :
    (runCalls pf cs World.start).log =
      if cs = [] then [] else (CPU.Initialize pf World.start).log := by
  cases cs with
  | nil => rfl
  | cons c cs =>
    simp only [runCalls]
    rw [runCalls_log_of_initialized pf cs _ (Call.run_initialized pf c _), Call.run_log,
      CPU.Probe_start]
    simp

theorem idiomBlock_log (fr : Frame) : (idiomBlock fr).log = fr.log := by
  unfold idiomBlock
  simp only [family_model]
  by_cases hz : 0x062A ≤ (wrap32 (fr.self.family_ <<< 8) ||| fr.self.model_) <;>
  by_cases ho : 0x065E ≤ (wrap32 (fr.self.family_ <<< 8) ||| fr.self.model_) <;>
  simp [hz, ho]

theorem cacheLineBlock_log (hw : Hardware) (fr : Frame) :
    (cacheLineBlock hw fr).log = fr.log ++
      (if strcmp_eq fr.self.vendor_ GenuineIntel then [HwQuery.cpuid 1]
       else if strcmp_eq fr.self.vendor_ AuthenticAMD then [HwQuery.cpuid 0x80000005]
       else []) := by
  unfold cacheLineBlock
  by_cases hi : strcmp_eq fr.self.vendor_ GenuineIntel = true <;>
  by_cases ha : strcmp_eq fr.self.vendor_ AuthenticAMD = true <;>
  simp [hi, ha, __cpuid]

/-- The instructions the constructor executes, written out. -/
theorem constructLog_eq (hw : Hardware) :
    constructLog hw =
      [HwQuery.cpuid 0] ++
      (if 0 < (cpuid_words hw 0).w0 then [HwQuery.cpuid 1] else []) ++
      (if 7 ≤ (cpuid_words hw 0).w0 then [HwQuery.cpuid 7] else []) ++
      [HwQuery.cpuid 0x80000000] ++
      (if 0x80000000 < (cpuid_words hw 0x80000000).w0 then
        [HwQuery.cpuid 0x80000002, HwQuery.cpuid 0x80000003, HwQuery.cpuid 0x80000004,
         HwQuery.cpuid 0x80000001] else []) ++
      (if strcmp_eq (construct hw).vendor_ GenuineIntel then [HwQuery.cpuid 1]
       else if strcmp_eq (construct hw).vendor_ AuthenticAMD then [HwQuery.cpuid 0x80000005]
       else []) := by
  rw [construct_vendor_]
  unfold constructLog constructFrame
  rw [cacheLineBlock_log, idiomBlock_log, idiomBlock_self]
  by_cases h1 : 0 < (cpuid_words hw 0).w0 <;>
  by_cases h7 : 7 ≤ (cpuid_words hw 0).w0 <;>
  by_cases hx : 0x80000000 < (cpuid_words hw 0x80000000).w0 <;>
  simp [basicBlock, leaf1Block, leaf7Block, extIdsBlock, brandBlock, extFeatureBlock, __cpuid,
      h1, h7, hx]

theorem constructLog_count (hw : Hardware) :
    (constructLog hw).count (HwQuery.cpuid 0) = 1 := by
  rw [constructLog_eq]
  by_cases h1 : 0 < (cpuid_words hw 0).w0 <;>
  by_cases h7 : 7 ≤ (cpuid_words hw 0).w0 <;>
  by_cases hx : 0x80000000 < (cpuid_words hw 0x80000000).w0 <;>
  by_cases hi : strcmp_eq (construct hw).vendor_ GenuineIntel = true <;>
  by_cases ha : strcmp_eq (construct hw).vendor_ AuthenticAMD = true <;>
  simp [h1, h7, hx, hi, ha, List.count_cons]

theorem Initialize_log (pf : Platform) (w : World) :
    (CPU.Initialize pf w).log = w.log ++ constructLog pf.hw ++
      (if (construct pf.hw).has_osxsave then [HwQuery.xgetbv 0] else []) := by
  have hc : ∀ (b : Bool) (f : CpuFeature) (v : World), (CPU.copyFeature b f v).log = v.log := by
    intro b f v
    cases b <;> rfl
  have hv : ∀ (b : Bool) (c : ProcessorInformation) (v : World),
      (CPU.vzeroBlock b c v).log = v.log := by
    intro b c v
    unfold CPU.vzeroBlock
    cases c.has_avx <;> cases b <;> rfl
  have ha : ∀ (c : ProcessorInformation) (v : World),
      (CPU.avxBlock pf.hw c v).log =
        v.log ++ (if c.has_osxsave then [HwQuery.xgetbv 0] else []) := by
    intro c v
    unfold CPU.avxBlock
    cases c.has_osxsave <;> cases os_has_avx_support pf.hw <;> simp [hc]
  simp only [CPU.Initialize, hv, hc, ha]

theorem Initialize_log_count (pf : Platform) :
    (CPU.Initialize pf World.start).log.count (HwQuery.cpuid 0) = 1 := by
  rw [Initialize_log]
  simp only [List.count_append, constructLog_count, World.start]
  cases (construct pf.hw).has_osxsave <;> simp [List.count_cons]

/-- C4: `Probe()` is idempotent. In every initialised state it returns the
state unchanged, log of hardware instructions included; over any sequence of
calls from the start state the executed instructions are those of one
`Initialize` (none for the empty sequence), so leaf 0, which every construction
of the identification queries first, is queried at most once;
`SupportedFeatures()` returns the same value after any sequence of `Probe`,
`SupportedFeatures`, `Enabled`, `CacheLineSize`, `VZeroNeeded` calls; and a
later `Probe()` leaves the state reached by `Enable` / `Disable` as it is. -/
theorem C4_probe_idempotent (pf : Platform) :
    (∀ w : World, w.cpu.initialized = true → CPU.Probe pf w = w) ∧
    (∀ w : World, CPU.Probe pf (CPU.Probe pf w) = CPU.Probe pf w) ∧
    (∀ cs : List Call,
      (runCalls pf cs World.start).log =
        (if cs = [] then [] else (CPU.Initialize pf World.start).log) ∧
      (runCalls pf cs World.start).log.count (HwQuery.cpuid 0) ≤ 1) ∧
    (∀ (cs : List Call) (w : World), (∀ c ∈ cs, c.isQuery = true) →
      (CPU.SupportedFeatures pf (runCalls pf cs w)).1 = (CPU.SupportedFeatures pf w).1) ∧
    (∀ (f : CpuFeature) (w : World),
      CPU.Probe pf (CPU.Enable pf f w) = CPU.Enable pf f w ∧
      CPU.Probe pf (CPU.Disable pf f w) = CPU.Disable pf f w) := by
  refine ⟨CPU.Probe_of_initialized pf, CPU.Probe_Probe pf, ?_, ?_, ?_⟩
  · intro cs
    refine ⟨runCalls_start_log pf cs, ?_⟩
    rw [runCalls_start_log]
    by_cases hcs : cs = []
    · simp [hcs]
    · simp only [if_neg hcs, Initialize_log_count, le_refl]
  · intro cs w hq
    simp only [CPU.SupportedFeatures, runCalls_queries_Probe pf cs w hq]
  · intro f w
    exact ⟨CPU.Probe_of_initialized pf _ (CPU.Probe_initialized pf w),
      CPU.Probe_of_initialized pf _ (CPU.Probe_initialized pf w)⟩


/-- C4 at a concrete input: the Skylake-like processor, the initialised state
reached by the first `Probe()`, and a sequence of five query calls. -/
theorem C4_probe_idempotent_witness :
    ((CPU.Probe ⟨mockSkylake, false⟩ World.start).cpu.initialized = true ∧
      CPU.Probe ⟨mockSkylake, false⟩ (CPU.Probe ⟨mockSkylake, false⟩ World.start) =
        CPU.Probe ⟨mockSkylake, false⟩ World.start) ∧
    ((∀ c ∈ [Call.Probe, Call.SupportedFeatures, Call.Enabled .AVX, Call.CacheLineSize,
        Call.VZeroNeeded], c.isQuery = true) ∧
      (CPU.SupportedFeatures ⟨mockSkylake, false⟩
        (runCalls ⟨mockSkylake, false⟩
          [Call.Probe, Call.SupportedFeatures, Call.Enabled .AVX, Call.CacheLineSize,
            Call.VZeroNeeded] World.start)).1 =
        (CPU.SupportedFeatures ⟨mockSkylake, false⟩ World.start).1) :=
  ⟨⟨by decide, (C4_probe_idempotent ⟨mockSkylake, false⟩).1 _ (by decide)⟩,
   ⟨by decide, (C4_probe_idempotent ⟨mockSkylake, false⟩).2.2.2.1 _ World.start (by decide)⟩⟩

/-- C9, evaluated where it fails: with vendor `GenuineIntel` and maximum basic
leaf 0 the constructor still queries leaf 1 (for the cache line size); with
vendor `AuthenticAMD` and maximum extended leaf `0x80000001` it still queries
the brand leaves `0x80000002..0x80000004` and leaf `0x80000005`. -/
theorem C9_unguarded_queries :
    ((cpuid_words mockIntelLeaf0Only 0).w0 = 0 ∧
      constructLog mockIntelLeaf0Only =
        [HwQuery.cpuid 0, HwQuery.cpuid 0x80000000, HwQuery.cpuid 1]) ∧
    ((cpuid_words mockAmdExt1 0x80000000).w0 = 0x80000001 ∧
      constructLog mockAmdExt1 =
        [HwQuery.cpuid 0, HwQuery.cpuid 1, HwQuery.cpuid 0x80000000, HwQuery.cpuid 0x80000002,
         HwQuery.cpuid 0x80000003, HwQuery.cpuid 0x80000004, HwQuery.cpuid 0x80000001,
         HwQuery.cpuid 0x80000005]) := by
  decide

/-! ## The brand string -/

theorem intercalate_cons (x : List Nat) (ws : List (List Nat)) :
    [32].intercalate (x :: ws) = x ++ (if ws = [] then [] else 32 :: [32].intercalate ws) := by
  cases ws with
  | nil => simp [List.intercalate]
  | cons y ys => simp [List.intercalate]

theorem compactLoop_out (l : List Nat) (space : Bool) (out : List Nat) :
    compactLoop l space out = out ++ compactLoop l space [] := by
  induction l generalizing space out with
  | nil => simp [compactLoop]
  | cons c rest ih =>
    by_cases hc : c = 32
    · subst hc
      simp only [compactLoop, beq_self_eq_true, if_true]
      exact ih true out
    · have hc' : (c == 32) = false := by simpa using hc
      simp only [compactLoop, hc', Bool.false_eq_true, if_false]
      rw [ih false ((if space = true then out ++ [32] else out) ++ [c]),
        ih false ((if space = true then [] ++ [32] else []) ++ [c])]
      cases space <;> simp

/-- The copying loop in terms of the pieces between spaces: started with the
flag set it writes a space and then the joined pieces (nothing when no piece
is left); started with the flag clear it writes the first piece as it is and
then the rest in the same way. -/
theorem compactLoop_pieces (l : List Nat) :
    (compactLoop l true [] =
      if brandWords l = [] then [] else 32 :: [32].intercalate (brandWords l)) ∧
    (∀ hd tl, l.splitOn 32 = hd :: tl →
      compactLoop l false [] = hd ++
        (if tl.filter (fun w => !w.isEmpty) = [] then []
         else 32 :: [32].intercalate (tl.filter (fun w => !w.isEmpty)))) := by
  induction l with
  | nil =>
    refine ⟨by decide, ?_⟩
    intro hd tl h
    simp [List.splitOn] at h
    obtain ⟨rfl, rfl⟩ := h
    rfl
  | cons c r ih =>
    obtain ⟨iha, ihc⟩ := ih
    obtain ⟨hd0, tl0, h0⟩ : ∃ hd0 tl0, r.splitOn 32 = hd0 :: tl0 := by
      cases h : r.splitOn 32 with
      | nil => exact absurd h (List.splitOnP_ne_nil _ _)
      | cons a b => exact ⟨a, b, rfl⟩
    have hc0 := ihc hd0 tl0 h0
    by_cases hc : c = 32
    · subst hc
      have hw : brandWords (32 :: r) = brandWords r := by
        simp [brandWords, List.splitOn]
      refine ⟨?_, ?_⟩
      · rw [hw]
        simpa [compactLoop] using iha
      · intro hd tl h
        have h' : ([] : List Nat) :: r.splitOn 32 = hd :: tl := by
          simpa [List.splitOn] using h
        obtain ⟨rfl, rfl⟩ := List.cons.inj h'
        simpa [compactLoop, brandWords] using iha
    · have hc' : (c == 32) = false := by simpa using hc
      have hsp : (c :: r).splitOn 32 = (c :: hd0) :: tl0 := by
        have : List.splitOnP (fun x => x == 32) r = hd0 :: tl0 := h0
        simp [List.splitOn, hc, this]
      have hfalse : compactLoop (c :: r) false [] = c :: compactLoop r false [] := by
        simp only [compactLoop, hc', Bool.false_eq_true, if_false]
        rw [compactLoop_out]
        simp
      have htrue : compactLoop (c :: r) true [] = 32 :: c :: compactLoop r false [] := by
        simp only [compactLoop, hc', Bool.false_eq_true, if_false, if_true]
        rw [compactLoop_out]
        simp
      refine ⟨?_, ?_⟩
      · have hw : brandWords (c :: r) = (c :: hd0) :: tl0.filter (fun w => !w.isEmpty) := by
          simp [brandWords, hsp]
        rw [htrue, hw, hc0, intercalate_cons]
        simp
      · intro hd tl h
        rw [hsp] at h
        obtain ⟨rfl, rfl⟩ := List.cons.inj h
        rw [hfalse, hc0]
        simp

theorem compactBrand_eq_joined (raw : List Nat) :
    compactBrand raw = joinedBrand raw ++ [0] := by
  have key : compactLoop (skipSpaces raw) false [] = joinedBrand raw := by
    induction raw with
    | nil => decide
    | cons c r ih =>
      by_cases hc : c = 32
      · subst hc
        have hw : brandWords (32 :: r) = brandWords r := by
          simp [brandWords, List.splitOn]
        simpa [skipSpaces, joinedBrand, hw] using ih
      · have hc' : (c == 32) = false := by simpa using hc
        obtain ⟨hd0, tl0, h0⟩ : ∃ hd0 tl0, (c :: r).splitOn 32 = hd0 :: tl0 := by
          cases h : (c :: r).splitOn 32 with
          | nil => exact absurd h (List.splitOnP_ne_nil _ _)
          | cons a b => exact ⟨a, b, rfl⟩
        have hne : hd0 ≠ [] := by
          intro he
          subst he
          have : List.modifyHead (List.cons c) (List.splitOnP (fun x => x == 32) r) = [] :: tl0 := by
            simpa [List.splitOn, hc] using h0
          cases hr : List.splitOnP (fun x => x == 32) r with
          | nil => exact absurd hr (List.splitOnP_ne_nil _ _)
          | cons a b => rw [hr] at this; simp [List.modifyHead] at this
        have hw : brandWords (c :: r) = hd0 :: tl0.filter (fun w => !w.isEmpty) := by
          simp [brandWords, h0, hne]
        simp only [skipSpaces, hc', Bool.false_eq_true, if_false, joinedBrand]
        rw [(compactLoop_pieces (c :: r)).2 hd0 tl0 h0, hw, intercalate_cons]
  simp [compactBrand, key]


theorem compactLoop_filter (l : List Nat) (space : Bool) (out : List Nat) :
    (compactLoop l space out).filter (fun c => c != 32) =
      out.filter (fun c => c != 32) ++ l.filter (fun c => c != 32) := by
  induction l generalizing space out with
  | nil => simp [compactLoop]
  | cons c rest ih =>
    by_cases hc : c = 32
    · subst hc
      simp only [compactLoop, beq_self_eq_true, if_true]
      rw [ih]
      simp
    · have hc1 : (c == 32) = false := by simpa using hc
      simp only [compactLoop, hc1, Bool.false_eq_true, if_false]
      rw [ih]
      cases space <;> simp [List.filter_cons, hc]

theorem skipSpaces_filter (l : List Nat) :
    (skipSpaces l).filter (fun c => c != 32) = l.filter (fun c => c != 32) := by
  induction l with
  | nil => rfl
  | cons c rest ih =>
    by_cases hc : c = 32
    · subst hc
      simpa [skipSpaces] using ih
    · have hc1 : (c == 32) = false := by simpa using hc
      simp [skipSpaces, hc1]

/-- C10, as stated, fails: for the 48 raw bytes
`"  Intel(R)   Xeon(R) CPU    E5  @ 2.40GHz       "` the constructor writes
`"Intel(R) Xeon(R) CPU E5 @ 2.40GHz"` and the terminator, while collapsing
every run, the final one included, to one space gives a string ending in a
space. -/
theorem C10_counterexample :
    (0x80000000 < (cpuid_words mockXeon 0x80000000).w0 ∧
      (construct mockXeon).brand_ = xeonBrand ++ [0]) ∧
    collapsedBrand (rawBrand (cpuid_words mockXeon 0x80000002) (cpuid_words mockXeon 0x80000003)
      (cpuid_words mockXeon 0x80000004)) = xeonBrand ++ [32] ∧
    (construct mockXeon).brand_ ≠
      collapsedBrand (rawBrand (cpuid_words mockXeon 0x80000002)
        (cpuid_words mockXeon 0x80000003) (cpuid_words mockXeon 0x80000004)) ++ [0] := by
  decide

/-- C10, amended: for every raw byte string the bytes written to `brand_` are
the non-empty space-free pieces of the raw string joined by single spaces,
followed by the terminator: leading spaces and a final run of spaces are
dropped and every other maximal run of spaces becomes one space; the non-space
bytes are kept in their order. When extended leaves exist, `brand_`
is this for the 48 bytes of leaves `0x80000002..0x80000004`. -/
theorem C10_brand_compaction (hw : Hardware) :
    (∀ raw : List Nat, compactBrand raw = joinedBrand raw ++ [0]) ∧
    (∀ raw : List Nat, (compactLoop (skipSpaces raw) false []).filter (fun c => c != 32) =
      raw.filter (fun c => c != 32)) ∧
    (0x80000000 < (cpuid_words hw 0x80000000).w0 →
      (construct hw).brand_ =
        joinedBrand (rawBrand (cpuid_words hw 0x80000002) (cpuid_words hw 0x80000003)
          (cpuid_words hw 0x80000004)) ++ [0]) := by
  refine ⟨compactBrand_eq_joined, ?_, ?_⟩
  · intro raw
    rw [compactLoop_filter, skipSpaces_filter]
    simp
  · intro hx
    rw [construct_eq_closedForm, ← compactBrand_eq_joined]
    simp [closedForm, hx]

/-- C10 (amended) at a concrete input: the processor whose brand leaves spell
`"  Intel(R)   Xeon(R) CPU    E5  @ 2.40GHz       "`. -/
theorem C10_brand_compaction_witness :
    0x80000000 < (cpuid_words mockXeon 0x80000000).w0 ∧
    (construct mockXeon).brand_ =
      joinedBrand (rawBrand (cpuid_words mockXeon 0x80000002) (cpuid_words mockXeon 0x80000003)
        (cpuid_words mockXeon 0x80000004)) ++ [0] ∧
    joinedBrand (rawBrand (cpuid_words mockXeon 0x80000002) (cpuid_words mockXeon 0x80000003)
      (cpuid_words mockXeon 0x80000004)) = xeonBrand :=
  ⟨by decide, (C10_brand_compaction mockXeon).2.2 (by decide), by decide⟩

/-! ## Conditions and registers -/

theorem NegateCondition_involutive (cc : Condition) :
    NegateCondition (NegateCondition cc) = cc := by
  unfold NegateCondition
  cases cc with
  | ofNat n => simp [Int.xor, Nat.xor_assoc]
  | negSucc n => simp [Int.xor, Nat.xor_assoc]

theorem NegateCondition_real (c : Int) (h0 : 0 ≤ c) (h15 : c ≤ 15) :
    0 ≤ NegateCondition c ∧ NegateCondition c ≤ 15 ∧ NegateCondition c ≠ c := by
  have h : c < 16 := by omega
  interval_cases c <;> decide

/-- C11: on the real conditions `NegateCondition` is an involution: for every
condition code `c` in 0..15, `NegateCondition(c)` is `c ^ 1`, lies in 0..15,
differs from `c`, and `NegateCondition(NegateCondition(c)) = c`. -/
theorem C11_negate_involution (c : Condition) (h0 : 0 ≤ c) (h15 : c ≤ 15) :
    NegateCondition c = Int.xor c 1 ∧
    0 ≤ NegateCondition c ∧ NegateCondition c ≤ 15 ∧
    NegateCondition c ≠ c ∧
    NegateCondition (NegateCondition c) = c :=
  ⟨rfl, (NegateCondition_real c h0 h15).1, (NegateCondition_real c h0 h15).2.1,
    (NegateCondition_real c h0 h15).2.2, NegateCondition_involutive c⟩

/-- C11 at a concrete input: `below` is real and its negation is `above_equal`. -/
theorem C11_negate_involution_witness :
    (0 : Int) ≤ below ∧ below ≤ 15 ∧ NegateCondition below = above_equal ∧
    NegateCondition (NegateCondition below) = below :=
  ⟨by decide, by decide, by decide,
   (C11_negate_involution below (by decide) (by decide)).2.2.2.2⟩

/-- C12: `CommuteCondition` swaps below and above, below_equal and
above_equal, less and greater, less_equal and greater_equal, and is the
identity on equal, not_equal and every other condition value (overflow,
no_overflow, negative, positive, the parities, always, never, no_condition and
any further value). -/
theorem C12_commute_table :
    CommuteCondition below = above ∧ CommuteCondition above = below ∧
    CommuteCondition below_equal = above_equal ∧ CommuteCondition above_equal = below_equal ∧
    CommuteCondition less = greater ∧ CommuteCondition greater = less ∧
    CommuteCondition less_equal = greater_equal ∧ CommuteCondition greater_equal = less_equal ∧
    CommuteCondition equal = equal ∧ CommuteCondition not_equal = not_equal ∧
    CommuteCondition overflow = overflow ∧ CommuteCondition no_overflow = no_overflow ∧
    CommuteCondition negative = negative ∧ CommuteCondition positive = positive ∧
    CommuteCondition parity_even = parity_even ∧ CommuteCondition parity_odd = parity_odd ∧
    CommuteCondition always = always ∧ CommuteCondition never = never ∧
    CommuteCondition no_condition = no_condition ∧
    (∀ cc : Condition, cc ≠ below → cc ≠ above → cc ≠ below_equal → cc ≠ above_equal →
      cc ≠ less → cc ≠ greater → cc ≠ less_equal → cc ≠ greater_equal →
      CommuteCondition cc = cc) := by
  have hdefault : ∀ cc : Condition, cc ≠ below → cc ≠ above → cc ≠ below_equal →
      cc ≠ above_equal → cc ≠ less → cc ≠ greater → cc ≠ less_equal → cc ≠ greater_equal →
      CommuteCondition cc = cc := by
    intro cc h1 h2 h3 h4 h5 h6 h7 h8
    simp [CommuteCondition, h1, h2, h3, h4, h5, h6, h7, h8]
  and_intros
  all_goals first
    | decide
    | exact hdefault

/-- C12 at a concrete input: the negative value -2 is left as it is. -/
theorem C12_commute_table_witness :
    (-2 : Condition) ≠ below ∧ CommuteCondition (-2) = -2 :=
  ⟨by decide, C12_commute_table.2.2.2.2.2.2.2.2.2.2.2.2.2.2.2.2.2.2.2 (-2)
    (by decide) (by decide) (by decide) (by decide) (by decide) (by decide) (by decide)
    (by decide)⟩

theorem code_decomposition (c : Int) (h0 : 0 ≤ c) (h16 : c < 16) :
    (c >>> 3 = 0 ∨ c >>> 3 = 1) ∧ 0 ≤ Int.land c 0x7 ∧ Int.land c 0x7 ≤ 7 ∧
      c = 8 * (c >>> 3) + Int.land c 0x7 := by
  interval_cases c <;> decide

/-- C18: for `Register`, `XMMRegister` and `YMMRegister`, `is_valid()` holds
exactly when `0 ≤ code < 16`, and for every valid register `high_bit()` is 0
or 1, `low_bits()` is in 0..7 and `code() = 8 * high_bit() + low_bits()`; for
general registers `is_byte_register()` holds exactly when `code ≤ 3`, which
among the valid registers is exactly rax, rcx, rdx, rbx. -/
theorem C18_register_codes :
    (∀ r : Register,
      (r.is_valid = true ↔ 0 ≤ r.code ∧ r.code < 16) ∧
      (r.is_valid = true →
        (r.high_bit = 0 ∨ r.high_bit = 1) ∧ 0 ≤ r.low_bits ∧ r.low_bits ≤ 7 ∧
        r.code = 8 * r.high_bit + r.low_bits) ∧
      (r.is_byte_register = true ↔ r.code ≤ 3) ∧
      (r.is_valid = true →
        (r.is_byte_register = true ↔ r = rax ∨ r = rcx ∨ r = rdx ∨ r = rbx))) ∧
    (∀ r : XMMRegister,
      (r.is_valid = true ↔ 0 ≤ r.code ∧ r.code < 16) ∧
      (r.is_valid = true →
        (r.high_bit = 0 ∨ r.high_bit = 1) ∧ 0 ≤ r.low_bits ∧ r.low_bits ≤ 7 ∧
        r.code = 8 * r.high_bit + r.low_bits)) ∧
    (∀ r : YMMRegister,
      (r.is_valid = true ↔ 0 ≤ r.code ∧ r.code < 16) ∧
      (r.is_valid = true →
        (r.high_bit = 0 ∨ r.high_bit = 1) ∧ 0 ≤ r.low_bits ∧ r.low_bits ≤ 7 ∧
        r.code = 8 * r.high_bit + r.low_bits)) := by
  refine ⟨?_, ?_, ?_⟩
  · rintro ⟨c⟩
    have hv : (Register.mk c).is_valid = true ↔ 0 ≤ c ∧ c < 16 := by
      simp [Register.is_valid, Register.kNumRegisters, Register.kAfterLast]
    refine ⟨hv, fun h => code_decomposition c (hv.1 h).1 (hv.1 h).2, ?_, fun h => ?_⟩
    · simp [Register.is_byte_register, Register.code]
    · obtain ⟨h0, h16⟩ := hv.1 h
      simp only [Register.is_byte_register, rax, rcx, rdx, rbx, Register.mk.injEq,
        decide_eq_true_eq]
      omega
  · rintro ⟨c⟩
    have hv : (XMMRegister.mk c).is_valid = true ↔ 0 ≤ c ∧ c < 16 := by
      simp [XMMRegister.is_valid, XMMRegister.kMaxNumRegisters, XMMRegister.kAfterLast]
    exact ⟨hv, fun h => code_decomposition c (hv.1 h).1 (hv.1 h).2⟩
  · rintro ⟨c⟩
    have hv : (YMMRegister.mk c).is_valid = true ↔ 0 ≤ c ∧ c < 16 := by
      simp [YMMRegister.is_valid, YMMRegister.kMaxNumRegisters, YMMRegister.kAfterLast]
    exact ⟨hv, fun h => code_decomposition c (hv.1 h).1 (hv.1 h).2⟩

/-- C18 at concrete inputs: r13, rbx, xmm9 and ymm15 are valid; `no_reg` is not. -/
theorem C18_register_codes_witness :
    (r13.is_valid = true ∧ r13.high_bit = 1 ∧ r13.low_bits = 5 ∧
      r13.code = 8 * r13.high_bit + r13.low_bits) ∧
    (rbx.is_valid = true ∧ (rbx.is_byte_register = true ↔
      rbx = rax ∨ rbx = rcx ∨ rbx = rdx ∨ rbx = rbx)) ∧
    (xmm9.is_valid = true ∧ xmm9.code = 8 * xmm9.high_bit + xmm9.low_bits) ∧
    (ymm15.is_valid = true ∧ ymm15.code = 8 * ymm15.high_bit + ymm15.low_bits) ∧
    no_reg.is_valid = false :=
  ⟨⟨by decide, by decide, by decide, ((C18_register_codes.1 r13).2.1 (by decide)).2.2.2⟩,
   ⟨by decide, (C18_register_codes.1 rbx).2.2.2 (by decide)⟩,
   ⟨by decide, ((C18_register_codes.2.1 xmm9).2 (by decide)).2.2.2⟩,
   ⟨by decide, ((C18_register_codes.2.2 ymm15).2 (by decide)).2.2.2⟩,
   by decide⟩

/-- C13: `architecture()` maps `family_model()` through the fixed table of 25
codes to the 13 names, and every value that is not in the table to the empty
string. -/
theorem C13_architecture_table (p : ProcessorInformation) :
    (p.family_model = 0x065E → p.architecture = "Skylake") ∧
    (p.family_model = 0x063D → p.architecture = "Broadwell") ∧
    (p.family_model = 0x063C ∨ p.family_model = 0x063F ∨ p.family_model = 0x0645 ∨
      p.family_model = 0x0646 → p.architecture = "Haswell") ∧
    (p.family_model = 0x064A → p.architecture = "Silvermont") ∧
    (p.family_model = 0x063A ∨ p.family_model = 0x063E → p.architecture = "Ivy Bridge") ∧
    (p.family_model = 0x062A ∨ p.family_model = 0x062D → p.architecture = "Sandy Bridge") ∧
    (p.family_model = 0x061E ∨ p.family_model = 0x061A ∨ p.family_model = 0x062E →
      p.architecture = "Nehalem") ∧
    (p.family_model = 0x0625 ∨ p.family_model = 0x062C ∨ p.family_model = 0x062F →
      p.architecture = "Westmere") ∧
    (p.family_model = 0x0617 ∨ p.family_model = 0x061D → p.architecture = "Penryn") ∧
    (p.family_model = 0x060F ∨ p.family_model = 0x0616 → p.architecture = "Merom") ∧
    (p.family_model = 0x0F06 → p.architecture = "Presler") ∧
    (p.family_model = 0x0F03 ∨ p.family_model = 0x0F04 → p.architecture = "Prescott") ∧
    (p.family_model = 0x060D → p.architecture = "Dothan") ∧
    (p.family_model ∉ [0x065E, 0x063D, 0x063C, 0x063F, 0x0645, 0x0646, 0x064A, 0x063A, 0x063E,
        0x062A, 0x062D, 0x061E, 0x061A, 0x062E, 0x0625, 0x062C, 0x062F, 0x0617, 0x061D, 0x060F,
        0x0616, 0x0F06, 0x0F03, 0x0F04, 0x060D] → p.architecture = "") := by
  refine ⟨?_, ?_, ?_, ?_, ?_, ?_, ?_, ?_, ?_, ?_, ?_, ?_, ?_, ?_⟩
  · intro h
    simp [architecture, h]
  · intro h
    simp [architecture, h]
  · intro h
    rcases h with h | h | h | h <;> simp [architecture, h]
  · intro h
    simp [architecture, h]
  · intro h
    rcases h with h | h <;> simp [architecture, h]
  · intro h
    rcases h with h | h <;> simp [architecture, h]
  · intro h
    rcases h with h | h | h <;> simp [architecture, h]
  · intro h
    rcases h with h | h | h <;> simp [architecture, h]
  · intro h
    rcases h with h | h <;> simp [architecture, h]
  · intro h
    rcases h with h | h <;> simp [architecture, h]
  · intro h
    simp [architecture, h]
  · intro h
    rcases h with h | h <;> simp [architecture, h]
  · intro h
    simp [architecture, h]
  · intro h
    simp only [List.mem_cons, List.mem_singleton, not_or, List.not_mem_nil,
      not_false_eq_true, and_true] at h
    simp [architecture, h]

/-- C13 at concrete inputs: three constructed objects with family/model keys
`0x065E`, `0x062A` and 0. -/
theorem C13_architecture_table_witness :
    (construct mockSkylake).family_model = 0x065E ∧
    (construct mockSkylake).architecture = "Skylake" ∧
    (construct mockIntelAvx).architecture = "Sandy Bridge" ∧
    (construct mockZero).architecture = "" :=
  ⟨by decide, (C13_architecture_table (construct mockSkylake)).1 (by decide),
   (C13_architecture_table (construct mockIntelAvx)).2.2.2.2.2.1 (Or.inl (by decide)),
   (C13_architecture_table (construct mockZero)).2.2.2.2.2.2.2.2.2.2.2.2.2 (by decide)⟩

/-! ## The SSE4_2 bit -/

/-- Bit 6 of the feature set is never set by `Initialize`. -/
theorem Initialize_testBit_six (pf : Platform) (w : World) :
    (CPU.Initialize pf w).cpu.features.testBit 6 = w.cpu.features.testBit 6 := by
  rw [CPU.Initialize_testBit]
  simp

theorem Probe_testBit_six (pf : Platform) (w : World) :
    (CPU.Probe pf w).cpu.features.testBit 6 = w.cpu.features.testBit 6 := by
  unfold CPU.Probe
  by_cases h : w.cpu.initialized = true
  · simp [h]
  · simp [h, Initialize_testBit_six]

theorem Call.run_testBit_six (pf : Platform) (c : Call) (w : World)
    (hc : c ≠ Call.Enable .SSE4_2) (hw : w.cpu.features.testBit 6 = false) :
    (c.run pf w).cpu.features.testBit 6 = false := by
  cases c with
  | Enable f =>
    have hf : f ≠ CpuFeature.SSE4_2 := fun h => hc (by rw [h])
    have hne : ¬ f.toNat = 6 := fun h => hf (toNat_injective (f := f) (g := .SSE4_2) h)
    simp [Call.run, CPU.Enable, Probe_testBit_six, hw, bit_eq, Nat.testBit_two_pow, hne]
  | Disable f =>
    simp [Call.run, CPU.Disable, Probe_testBit_six, hw]
  | _ =>
    simp [Call.run, CPU.SupportedFeatures, CPU.Enabled, CPU.CacheLineSize, CPU.VZeroNeeded,
      Probe_testBit_six, hw]

theorem runCalls_testBit_six (pf : Platform) (cs : List Call) (w : World)
    (hcs : Call.Enable .SSE4_2 ∉ cs) (hw : w.cpu.features.testBit 6 = false) :
    (runCalls pf cs w).cpu.features.testBit 6 = false := by
  induction cs generalizing w with
  | nil => exact hw
  | cons c cs ih =>
    simp only [runCalls]
    have hc : c ≠ Call.Enable .SSE4_2 := fun h => hcs (by simp [h])
    exact ih _ (fun h => hcs (by simp [h])) (Call.run_testBit_six pf c w hc hw)

/-- C14: SSE4_2 is never set by the probe: for every hardware, after
initialization of the zero-initialised cache bit 6 (SSE4_2) of the feature set
is clear, `SupportedFeatures()` has it clear, `Enabled(SSE4_2)` is false, and
it stays false over every sequence of calls that does not contain
`Enable(SSE4_2)`. -/
theorem C14_sse42_never_set (pf : Platform) :
    (CPU.Initialize pf World.start).cpu.features.testBit CpuFeature.SSE4_2.toNat = false ∧
    CpuFeature.SSE4_2.toNat = 6 ∧
    ((CPU.SupportedFeatures pf World.start).1 &&& bit .SSE4_2) = 0 ∧
    (CPU.Enabled pf .SSE4_2 World.start).1 = false ∧
    (∀ cs : List Call, Call.Enable .SSE4_2 ∉ cs →
      (CPU.Enabled pf .SSE4_2 (runCalls pf cs World.start)).1 = false) := by
  have h0 : World.start.cpu.features.testBit 6 = false := by decide
  have hE : ∀ w : World, w.cpu.features.testBit 6 = false →
      (CPU.Enabled pf .SSE4_2 w).1 = false := by
    intro w hw
    simp only [CPU.Enabled, and_bit_ne_zero, CpuFeature.toNat, Probe_testBit_six, hw]
  refine ⟨?_, rfl, ?_, hE _ h0, fun cs hcs => hE _ (runCalls_testBit_six pf cs _ hcs h0)⟩
  · simp only [CpuFeature.toNat, Initialize_testBit_six, h0]
  · have := hE _ h0
    simpa [CPU.Enabled, CPU.SupportedFeatures] using this

/-- C14 at a concrete input: the Skylake-like processor reports the SSE4.2
hardware bit, and `Enabled(SSE4_2)` is false after a sequence of calls without
`Enable(SSE4_2)`. -/
theorem C14_sse42_never_set_witness :
    (construct mockSkylake).has_sse42 = true ∧
    Call.Enable .SSE4_2 ∉ [Call.Probe, Call.Enable .AVX2, Call.Disable .SSE4_2, Call.Enabled .SSE4_2] ∧
    (CPU.Enabled ⟨mockSkylake, false⟩ .SSE4_2
      (runCalls ⟨mockSkylake, false⟩
        [Call.Probe, Call.Enable .AVX2, Call.Disable .SSE4_2, Call.Enabled .SSE4_2]
        World.start)).1 = false :=
  ⟨by decide, by decide,
   (C14_sse42_never_set ⟨mockSkylake, false⟩).2.2.2.2 _ (by decide)⟩

/-! ## Decoding of leaf 1 -/

theorem and_15 (x : Nat) : x &&& 0xf = x % 16 := by
  rw [show (0xf : Nat) = 2 ^ 4 - 1 by norm_num, Nat.and_pow_two_sub_one_eq_mod]

theorem and_3 (x : Nat) : x &&& 0x3 = x % 4 := by
  rw [show (0x3 : Nat) = 2 ^ 2 - 1 by norm_num, Nat.and_pow_two_sub_one_eq_mod]

theorem and_240 (x : Nat) : x &&& 0xf0 = (x / 16 % 16) * 16 := by
  apply Nat.eq_of_testBit_eq
  intro j
  rw [show (0xf0 : Nat) = (2 ^ 4 - 1) <<< 4 by decide,
    show (x / 16 % 16) * 16 = ((x >>> 4) % 2 ^ 4) <<< 4 by
      rw [Nat.shiftLeft_eq, Nat.shiftRight_eq_div_pow]; norm_num]
  simp only [Nat.testBit_and, Nat.testBit_shiftLeft, Nat.testBit_two_pow_sub_one,
    Nat.testBit_mod_two_pow, Nat.testBit_shiftRight]
  by_cases hj : 4 ≤ j
  · have : 4 + (j - 4) = j := by omega
    simp [hj, this, Bool.and_comm]
  · simp [hj]

theorem sar32_fields (w : Nat) (hw : w < 2 ^ 32) :
    sar32 w 4 % 16 = w / 2 ^ 4 % 16 ∧ sar32 w 8 % 16 = w / 2 ^ 8 % 16 ∧
    sar32 w 12 % 4 = w / 2 ^ 12 % 4 ∧ sar32 w 16 % 16 = w / 2 ^ 16 % 16 ∧
    sar32 w 20 % 256 = w / 2 ^ 20 % 256 ∧ sar32 w 12 / 16 % 16 = w / 2 ^ 16 % 16 := by
  unfold sar32 toInt32 ofInt32
  simp only [Int.shiftRight_eq_div_pow]
  split <;> omega


/-- The integer fields decoded from leaf 1, as bit ranges of the identification word. -/
theorem construct_leaf1_fields (hw : Hardware) (h1 : 1 ≤ (cpuid_words hw 0).w0) :
    (construct hw).stepping = (cpuid_words hw 1).w0 % 16 ∧
    (construct hw).family = (cpuid_words hw 1).w0 / 2 ^ 8 % 16 ∧
    (construct hw).type = (cpuid_words hw 1).w0 / 2 ^ 12 % 4 ∧
    (construct hw).ext_model = (cpuid_words hw 1).w0 / 2 ^ 16 % 16 ∧
    (construct hw).ext_family = (cpuid_words hw 1).w0 / 2 ^ 20 % 256 ∧
    (construct hw).model =
      (cpuid_words hw 1).w0 / 2 ^ 4 % 16 + 16 * ((cpuid_words hw 1).w0 / 2 ^ 16 % 16) := by
  have hw1 : (cpuid_words hw 1).w0 < 2 ^ 32 := wrap32_lt _
  obtain ⟨f4, f8, f12, f16, f20, f12b⟩ := sar32_fields _ hw1
  have h1p : 0 < (cpuid_words hw 0).w0 := h1
  rw [construct_eq_closedForm]
  simp only [closedForm, stepping, family, type, ext_model, ext_family, model, h1p,
    decide_True, if_true, and_15, and_3, and_255, and_240, f4, f8, f12, f16, f20, f12b]
  refine ⟨trivial, trivial, trivial, trivial, trivial, ?_⟩
  unfold wrap32
  omega

theorem family_model_eq (p : ProcessorInformation) (hf : p.family_ ≤ 15) (hm : p.model_ ≤ 255) :
    p.family_model = 256 * p.family_ + p.model_ := by
  have h1 : wrap32 (p.family_ <<< 8) = 2 ^ 8 * p.family_ := by
    rw [Nat.shiftLeft_eq]
    unfold wrap32
    omega
  have hm8 : p.model_ < 2 ^ 8 := by omega
  rw [family_model, h1, ← Nat.mul_add_lt_is_or hm8]

/-- C20: when leaf 1 is supported, for its identification word `w` (any 32-bit
pattern, bit 31 included): stepping is bits 0..3, family bits 8..11, type bits
12..13, ext_model bits 16..19, ext_family bits 20..27, model is bits 4..7 plus
16 times bits 16..19, `family_model()` is `256 * family + model`, at most
`0x0FFF`, and family and model are recovered from it as `family_model >> 8`
and `family_model & 0xff`. -/
theorem C20_leaf1_decode (hw : Hardware) (h1 : 1 ≤ (cpuid_words hw 0).w0) :
    (cpuid_words hw 1).w0 < 2 ^ 32 ∧
    (construct hw).stepping = (cpuid_words hw 1).w0 % 16 ∧
    (construct hw).family = (cpuid_words hw 1).w0 / 2 ^ 8 % 16 ∧
    (construct hw).type = (cpuid_words hw 1).w0 / 2 ^ 12 % 4 ∧
    (construct hw).ext_model = (cpuid_words hw 1).w0 / 2 ^ 16 % 16 ∧
    (construct hw).ext_family = (cpuid_words hw 1).w0 / 2 ^ 20 % 256 ∧
    (construct hw).model =
      (cpuid_words hw 1).w0 / 2 ^ 4 % 16 + 16 * ((cpuid_words hw 1).w0 / 2 ^ 16 % 16) ∧
    (construct hw).model = (cpuid_words hw 1).w0 / 2 ^ 4 % 16 + 16 * (construct hw).ext_model ∧
    (construct hw).family_model = 256 * (construct hw).family + (construct hw).model ∧
    (construct hw).family_model ≤ 0x0FFF ∧
    (construct hw).family = (construct hw).family_model >>> 8 ∧
    (construct hw).model = (construct hw).family_model &&& 0xff := by
  obtain ⟨hs, hf, ht, hxm, hxf, hm⟩ := construct_leaf1_fields hw h1
  have hfm : (construct hw).family_model = 256 * (construct hw).family + (construct hw).model :=
    family_model_eq _ (by rw [← family, hf]; omega) (by rw [← model, hm]; omega)
  refine ⟨wrap32_lt _, hs, hf, ht, hxm, hxf, hm, by rw [hm, hxm], hfm, ?_, ?_, ?_⟩
  · rw [hfm, hf, hm]; omega
  · rw [hfm, Nat.shiftRight_eq_div_pow, hf, hm]; omega
  · rw [hfm, and_255, hf, hm]; omega

/-- C20 at concrete inputs: `w = 0x000506E3` gives stepping 3, family 6, model
`0x5E`, family/model key `0x065E` and architecture `Skylake`; `w = 0xFFFFFFFF`
gives the key `0x0FFF`. -/
theorem C20_leaf1_decode_witness :
    ((cpuid_words mockSkylake 1).w0 = 0x000506E3 ∧
      (construct mockSkylake).stepping = 3 ∧ (construct mockSkylake).family = 6 ∧
      (construct mockSkylake).model = 0x5E ∧ (construct mockSkylake).family_model = 0x065E ∧
      (construct mockSkylake).architecture = "Skylake") ∧
    (1 ≤ (cpuid_words mockSkylake 0).w0 ∧
      (construct mockSkylake).family_model =
        256 * (construct mockSkylake).family + (construct mockSkylake).model) ∧
    (1 ≤ (cpuid_words mockSignBit 0).w0 ∧ (cpuid_words mockSignBit 1).w0 = 0xFFFFFFFF ∧
      (construct mockSignBit).family_model = 0x0FFF ∧
      (construct mockSignBit).family_model ≤ 0x0FFF) :=
  ⟨by decide,
   ⟨by decide, (C20_leaf1_decode mockSkylake (by decide)).2.2.2.2.2.2.2.2.1⟩,
   ⟨by decide, by decide, by decide,
    (C20_leaf1_decode mockSignBit (by decide)).2.2.2.2.2.2.2.2.2.1⟩⟩

/-- The family/model key of a constructed object is a non-negative `int` of at
most 12 bits, so the signed comparisons on it are comparisons of naturals. -/
theorem construct_family_model_le (hw : Hardware) : (construct hw).family_model ≤ 0x0FFF := by
  by_cases h1 : 1 ≤ (cpuid_words hw 0).w0
  · obtain ⟨_, hf, _, _, _, hm⟩ := construct_leaf1_fields hw h1
    rw [family_model_eq _ (by rw [← family, hf]; omega) (by rw [← model, hm]; omega),
      ← family, ← model, hf, hm]
    omega
  · have h0 : ¬ 0 < (cpuid_words hw 0).w0 := by omega
    rw [construct_eq_closedForm]
    simp [closedForm, family_model, h0, wrap32]

/-- C17: for every identification result `has_zero_idiom()` is true exactly
when `family_model() ≥ 0x062A` and `has_one_idiom()` exactly when
`family_model() ≥ 0x065E`, where `family_model()` is at most `0x0FFF`; hence
`has_one_idiom()` implies `has_zero_idiom()`, and in the freshly initialised
feature set ONEIDIOM set implies ZEROIDIOM set. -/
theorem C17_idiom_floors (pf : Platform) :
    (construct pf.hw).has_zero_idiom = decide (0x062A ≤ (construct pf.hw).family_model) ∧
    (construct pf.hw).has_one_idiom = decide (0x065E ≤ (construct pf.hw).family_model) ∧
    (construct pf.hw).family_model ≤ 0x0FFF ∧
    ((construct pf.hw).has_one_idiom = true → (construct pf.hw).has_zero_idiom = true) ∧
    ((((CPU.Initialize pf World.start).cpu.features &&& bit .ONEIDIOM) != 0) = true →
      (((CPU.Initialize pf World.start).cpu.features &&& bit .ZEROIDIOM) != 0) = true) := by
  have hz : (construct pf.hw).has_zero_idiom =
      decide (0x062A ≤ (construct pf.hw).family_model) := by
    rw [construct_eq_closedForm]
    simp [closedForm, has_zero_idiom, family_model]
  have ho : (construct pf.hw).has_one_idiom =
      decide (0x065E ≤ (construct pf.hw).family_model) := by
    rw [construct_eq_closedForm]
    simp [closedForm, has_one_idiom, family_model]
  have hoz : (construct pf.hw).has_one_idiom = true → (construct pf.hw).has_zero_idiom = true := by
    rw [hz, ho]
    simp only [decide_eq_true_eq]
    omega
  refine ⟨hz, ho, construct_family_model_le pf.hw, hoz, ?_⟩
  simp only [and_bit_ne_zero, CPU.Initialize_testBit, CpuFeature.toNat, World.start]
  simpa using hoz

/-- C17 at concrete inputs: key `0x065E` has both idioms, key `0x062A` only the
zero idiom. -/
theorem C17_idiom_floors_witness :
    (construct mockSkylake).has_one_idiom = true ∧
    (construct mockSkylake).has_zero_idiom = true ∧
    ((construct mockIntelAvx).family_model = 0x062A ∧
      (construct mockIntelAvx).has_zero_idiom = true ∧
      (construct mockIntelAvx).has_one_idiom = false) :=
  ⟨by decide, (C17_idiom_floors ⟨mockSkylake, false⟩).2.2.2.1 (by decide), by decide⟩

/-! ## Vendor and defaults -/

/-- C19: the 12 vendor bytes are the little-endian bytes of leaf-0 `ebx`, then
of `edx`, then of `ecx`, followed by a NUL at index 12 of the 13-byte buffer;
with `ebx = 0x756E6547`, `edx = 0x49656E69`, `ecx = 0x6C65746E` the vendor
string is `GenuineIntel`. -/
theorem C19_vendor_order (hw : Hardware) :
    (construct hw).vendor_ =
      bytesLE (wrap32 (hw.cpuid 0 0).ebx) ++ bytesLE (wrap32 (hw.cpuid 0 0).edx) ++
        bytesLE (wrap32 (hw.cpuid 0 0).ecx) ++ [0] ∧
    (construct hw).vendor_.length = 13 ∧
    (construct hw).vendor_[12]? = some 0 ∧
    (construct hw).vendor =
      cstr (bytesLE (wrap32 (hw.cpuid 0 0).ebx) ++ bytesLE (wrap32 (hw.cpuid 0 0).edx) ++
        bytesLE (wrap32 (hw.cpuid 0 0).ecx) ++ [0]) ∧
    ((hw.cpuid 0 0).ebx = 0x756E6547 → (hw.cpuid 0 0).edx = 0x49656E69 →
      (hw.cpuid 0 0).ecx = 0x6C65746E →
      (construct hw).vendor = "GenuineIntel".toList.map Char.toNat) := by
  have hv : (construct hw).vendor_ =
      bytesLE (wrap32 (hw.cpuid 0 0).ebx) ++ bytesLE (wrap32 (hw.cpuid 0 0).edx) ++
        bytesLE (wrap32 (hw.cpuid 0 0).ecx) ++ [0] := by
    rw [construct_vendor_]
    rfl
  refine ⟨hv, ?_, ?_, ?_, ?_⟩
  · rw [hv]; simp [bytesLE]
  · rw [hv]; simp [bytesLE]
  · rw [vendor, hv]
  · intro hb hd hc
    rw [vendor, hv, hb, hd, hc]
    decide

/-- C19 at a concrete input: the leaf-0 words of the Skylake-like processor. -/
theorem C19_vendor_order_witness :
    ((mockSkylake.cpuid 0 0).ebx = 0x756E6547 ∧ (mockSkylake.cpuid 0 0).edx = 0x49656E69 ∧
      (mockSkylake.cpuid 0 0).ecx = 0x6C65746E) ∧
    (construct mockSkylake).vendor = "GenuineIntel".toList.map Char.toNat ∧
    (construct mockSkylake).vendor_ =
      [0x47, 0x65, 0x6E, 0x75, 0x69, 0x6E, 0x65, 0x49, 0x6E, 0x74, 0x65, 0x6C, 0] :=
  ⟨by decide,
   (C19_vendor_order mockSkylake).2.2.2.2 (by decide) (by decide) (by decide),
   by decide⟩

/-- C16: when leaf 0 reports maximum basic leaf 0 and leaf `0x80000000`
reports a maximum extended leaf that does not exceed `0x80000000`, every
`has_*` boolean of the constructed object is false, stepping, model,
ext_model, family, ext_family and type are 0, and `brand()` is `Unknown`. -/
theorem C16_conservative_defaults (hw : Hardware)
    (h0 : (cpuid_words hw 0).w0 = 0)
    (hx : (cpuid_words hw 0x80000000).w0 ≤ 0x80000000) :
    ((construct hw).has_fpu = false ∧ (construct hw).has_cmov = false ∧
      (construct hw).has_sahf = false ∧ (construct hw).has_mmx = false ∧
      (construct hw).has_sse = false ∧ (construct hw).has_sse2 = false ∧
      (construct hw).has_sse3 = false ∧ (construct hw).has_ssse3 = false ∧
      (construct hw).has_sse41 = false ∧ (construct hw).has_sse42 = false ∧
      (construct hw).has_f16c = false ∧ (construct hw).has_osxsave = false ∧
      (construct hw).has_avx = false ∧ (construct hw).has_avx2 = false ∧
      (construct hw).has_fma3 = false ∧ (construct hw).has_bmi1 = false ∧
      (construct hw).has_bmi2 = false ∧ (construct hw).has_lzcnt = false ∧
      (construct hw).has_popcnt = false ∧ (construct hw).has_zero_idiom = false ∧
      (construct hw).has_one_idiom = false) ∧
    ((construct hw).stepping = 0 ∧ (construct hw).model = 0 ∧ (construct hw).ext_model = 0 ∧
      (construct hw).family = 0 ∧ (construct hw).ext_family = 0 ∧ (construct hw).type = 0) ∧
    (construct hw).brand = "Unknown".toList.map Char.toNat := by
  have hx' : ¬ 0x80000000 < (cpuid_words hw 0x80000000).w0 := by omega
  rw [construct_eq_closedForm]
  simp only [closedForm, has_fpu, has_cmov, has_sahf, has_mmx, has_sse, has_sse2, has_sse3,
    has_ssse3, has_sse41, has_sse42, has_f16c, has_osxsave, has_avx, has_avx2, has_fma3,
    has_bmi1, has_bmi2, has_lzcnt, has_popcnt, has_zero_idiom, has_one_idiom, stepping, model,
    ext_model, family, ext_family, type, brand, h0, hx']
  refine ⟨by simp [wrap32], by simp, ?_⟩
  simp only [decide_False, Bool.false_eq_true, if_false]
  decide

/-- C16 at a concrete input: the processor `mockIntelLeaf0Only`. -/
theorem C16_conservative_defaults_witness :
    ((cpuid_words mockIntelLeaf0Only 0).w0 = 0 ∧
      (cpuid_words mockIntelLeaf0Only 0x80000000).w0 ≤ 0x80000000) ∧
    (construct mockIntelLeaf0Only).brand = "Unknown".toList.map Char.toNat ∧
    (construct mockIntelLeaf0Only).brand_ = Unknown :=
  ⟨by decide, (C16_conservative_defaults mockIntelLeaf0Only (by decide) (by decide)).2.2,
   by decide⟩

/-! ## End to end -/

theorem Enabled_Probe_start (pf : Platform) (f : CpuFeature) :
    (CPU.Enabled pf f (CPU.Probe pf World.start)).1 =
      (CPU.Initialize pf World.start).cpu.features.testBit f.toNat := by
  simp only [CPU.Enabled, CPU.Probe_Probe, and_bit_ne_zero]
  rw [CPU.Probe_start]

theorem CacheLineSize_Probe_start (pf : Platform) :
    (CPU.CacheLineSize pf (CPU.Probe pf World.start)).1 = (construct pf.hw).cache_line_size := by
  rw [← CPU.CacheLineSize_start]
  simp only [CPU.CacheLineSize, CPU.Probe_Probe]

theorem VZeroNeeded_Probe_start (pf : Platform) :
    (CPU.VZeroNeeded pf (CPU.Probe pf World.start)).1 =
      (!pf.AVX_defined && (construct pf.hw).has_avx) := by
  simp only [CPU.VZeroNeeded, CPU.Probe_Probe]
  rw [CPU.Probe_start]
  exact CPU.Initialize_vzero pf World.start

/-- C15, as stated, fails: a processor with vendor `GenuineIntel`, leaf 1
reporting SSE, SSE2, OSXSAVE and AVX with byte field 8, OS support for AVX
state, and maximum basic leaf 0 (which is below 7) satisfies every condition of
the claim, but after probing `Enabled(AVX)` and `Enabled(SSE)` are false and
`VZeroNeeded()` is false in a build without `__AVX__`. -/
theorem C15_counterexample :
    ((cpuid_words mockIntelAvxLeaf0 0).w1 = 0x756E6547 ∧
      (cpuid_words mockIntelAvxLeaf0 0).w3 = 0x49656E69 ∧
      (cpuid_words mockIntelAvxLeaf0 0).w2 = 0x6C65746E ∧
      (cpuid_words mockIntelAvxLeaf0 0).w0 < 7 ∧
      ((cpuid_words mockIntelAvxLeaf0 1).w3 &&& 0x02000000) ≠ 0 ∧
      ((cpuid_words mockIntelAvxLeaf0 1).w3 &&& 0x04000000) ≠ 0 ∧
      ((cpuid_words mockIntelAvxLeaf0 1).w2 &&& 0x08000000) ≠ 0 ∧
      ((cpuid_words mockIntelAvxLeaf0 1).w2 &&& 0x10000000) ≠ 0 ∧
      (((cpuid_words mockIntelAvxLeaf0 1).w1 >>> 8) &&& 0xff) = 8 ∧
      (_xgetbv mockIntelAvxLeaf0 0 &&& 0x6) = 0x6) ∧
    (CPU.Enabled ⟨mockIntelAvxLeaf0, false⟩ .AVX
      (CPU.Probe ⟨mockIntelAvxLeaf0, false⟩ World.start)).1 = false ∧
    (CPU.Enabled ⟨mockIntelAvxLeaf0, false⟩ .SSE
      (CPU.Probe ⟨mockIntelAvxLeaf0, false⟩ World.start)).1 = false ∧
    (CPU.VZeroNeeded ⟨mockIntelAvxLeaf0, false⟩
      (CPU.Probe ⟨mockIntelAvxLeaf0, false⟩ World.start)).1 = false := by
  decide

/-- C15, amended: when leaf 0 returns the vendor words of `GenuineIntel` and a
maximum basic leaf of at least 1 and below 7, leaf 1 has the SSE, SSE2, OSXSAVE
and AVX bits set and byte field `(word1 >> 8) & 0xff` equal to 8, and
`(xcr0 & 0x6) == 0x6`, then after probing `CacheLineSize()` is 64,
`Enabled(AVX)`, `Enabled(SSE)` and `Enabled(SSE2)` are true, `Enabled(BMI1)` is
false, and `VZeroNeeded()` is true exactly when the build does not define
`__AVX__`. -/
theorem C15_end_to_end (pf : Platform)
    (hb : (cpuid_words pf.hw 0).w1 = 0x756E6547)
    (hd : (cpuid_words pf.hw 0).w3 = 0x49656E69)
    (hc : (cpuid_words pf.hw 0).w2 = 0x6C65746E)
    (h1 : 1 ≤ (cpuid_words pf.hw 0).w0) (h7 : (cpuid_words pf.hw 0).w0 < 7)
    (hsse : ((cpuid_words pf.hw 1).w3 &&& 0x02000000) ≠ 0)
    (hsse2 : ((cpuid_words pf.hw 1).w3 &&& 0x04000000) ≠ 0)
    (hosx : ((cpuid_words pf.hw 1).w2 &&& 0x08000000) ≠ 0)
    (havx : ((cpuid_words pf.hw 1).w2 &&& 0x10000000) ≠ 0)
    (hcl : (((cpuid_words pf.hw 1).w1 >>> 8) &&& 0xff) = 8)
    (hxcr : (_xgetbv pf.hw 0 &&& 0x6) = 0x6) :
    (CPU.CacheLineSize pf (CPU.Probe pf World.start)).1 = 64 ∧
    (CPU.Enabled pf .AVX (CPU.Probe pf World.start)).1 = true ∧
    (CPU.Enabled pf .SSE (CPU.Probe pf World.start)).1 = true ∧
    (CPU.Enabled pf .SSE2 (CPU.Probe pf World.start)).1 = true ∧
    (CPU.Enabled pf .BMI1 (CPU.Probe pf World.start)).1 = false ∧
    (CPU.VZeroNeeded pf (CPU.Probe pf World.start)).1 = !pf.AVX_defined := by
  have h1p : 0 < (cpuid_words pf.hw 0).w0 := h1
  have h7n : ¬ 7 ≤ (cpuid_words pf.hw 0).w0 := by omega
  have hF : (construct pf.hw).has_sse = true ∧ (construct pf.hw).has_sse2 = true ∧
      (construct pf.hw).has_osxsave = true ∧ (construct pf.hw).has_avx = true ∧
      (construct pf.hw).has_bmi1 = false := by
    rw [construct_eq_closedForm]
    simp [closedForm, has_sse, has_sse2, has_osxsave, has_avx, has_bmi1, h1p, h7n, hsse, hsse2,
      hosx, havx]
  obtain ⟨fsse, fsse2, fosx, favx, fbmi1⟩ := hF
  have hos : os_has_avx_support pf.hw = true := by
    simp [os_has_avx_support, hxcr]
  have hvend : strcmp_eq (construct pf.hw).vendor_ GenuineIntel = true := by
    rw [construct_vendor_, hb, hd, hc]
    decide
  refine ⟨?_, ?_, ?_, ?_, ?_, ?_⟩
  · rw [CacheLineSize_Probe_start, construct_cache_line_size, if_pos hvend, hcl]
  · rw [Enabled_Probe_start, CPU.Initialize_testBit]
    simp [CpuFeature.toNat, fosx, hos]
  · rw [Enabled_Probe_start, CPU.Initialize_testBit]
    simp [CpuFeature.toNat, fsse]
  · rw [Enabled_Probe_start, CPU.Initialize_testBit]
    simp [CpuFeature.toNat, fsse2]
  · rw [Enabled_Probe_start, CPU.Initialize_testBit]
    simp [CpuFeature.toNat, fbmi1, World.start]
  · rw [VZeroNeeded_Probe_start, favx]
    simp

/-- C15 (amended) at a concrete input: the processor `mockIntelAvx` in a build
without `__AVX__`. -/
theorem C15_end_to_end_witness :
    ((cpuid_words mockIntelAvx 0).w0 = 1 ∧
      (_xgetbv mockIntelAvx 0 &&& 0x6) = 0x6) ∧
    ((CPU.CacheLineSize ⟨mockIntelAvx, false⟩
        (CPU.Probe ⟨mockIntelAvx, false⟩ World.start)).1 = 64 ∧
    (CPU.Enabled ⟨mockIntelAvx, false⟩ .AVX
        (CPU.Probe ⟨mockIntelAvx, false⟩ World.start)).1 = true ∧
    (CPU.Enabled ⟨mockIntelAvx, false⟩ .SSE
        (CPU.Probe ⟨mockIntelAvx, false⟩ World.start)).1 = true ∧
    (CPU.Enabled ⟨mockIntelAvx, false⟩ .SSE2
        (CPU.Probe ⟨mockIntelAvx, false⟩ World.start)).1 = true ∧
    (CPU.Enabled ⟨mockIntelAvx, false⟩ .BMI1
        (CPU.Probe ⟨mockIntelAvx, false⟩ World.start)).1 = false ∧
    (CPU.VZeroNeeded ⟨mockIntelAvx, false⟩
        (CPU.Probe ⟨mockIntelAvx, false⟩ World.start)).1 = !(false : Bool)) :=
  ⟨by decide,
   C15_end_to_end ⟨mockIntelAvx, false⟩ (by decide) (by decide) (by decide) (by decide)
     (by decide) (by decide) (by decide) (by decide) (by decide) (by decide) (by decide)⟩

/-! ## Bounds on the brand buffer -/

/-- The copying loop writes at most one byte per byte read, plus the pending
space when the flag is set on entry. -/
theorem compactLoop_length (l : List Nat) (space : Bool) (out : List Nat) :
    (compactLoop l space out).length ≤ out.length + l.length + (if space then 1 else 0) := by
  induction l generalizing space out with
  | nil => simp [compactLoop]
  | cons c rest ih =>
    by_cases hc : c = 32
    · subst hc
      simp only [compactLoop, beq_self_eq_true, if_true]
      have := ih true out
      simp only [if_true] at this
      cases space <;> simp <;> omega
    · have hc1 : (c == 32) = false := by simpa using hc
      simp only [compactLoop, hc1, Bool.false_eq_true, if_false]
      have := ih false ((if space = true then out ++ [32] else out) ++ [c])
      cases space <;> simp at this ⊢ <;> omega

theorem skipSpaces_length (l : List Nat) : (skipSpaces l).length ≤ l.length := by
  induction l with
  | nil => simp [skipSpaces]
  | cons c rest ih =>
    by_cases hc : c = 32
    · subst hc
      simp only [skipSpaces, beq_self_eq_true, if_true, List.length_cons]
      omega
    · have hc1 : (c == 32) = false := by simpa using hc
      simp [skipSpaces, hc1]

theorem rawBrand_length (b0 b1 b2 : CpuInfo) : (rawBrand b0 b1 b2).length = 48 := by
  simp [rawBrand, bytesLE]

/-- C21: the brand compaction never overruns `brand_`: for every 48-byte raw
brand string the number of bytes written before the terminator is at most the
number of raw bytes left after the leading spaces, hence at most 48, so the
terminator is written at an index of at most 48 of the 49-byte buffer; the
three brand leaves always give 48 raw bytes, and the `brand_` of every
constructed object holds at most 49 bytes. -/
theorem C21_brand_no_overrun (hw : Hardware) :
    (∀ raw : List Nat, raw.length = 48 →
      (compactLoop (skipSpaces raw) false []).length ≤ (skipSpaces raw).length ∧
      (skipSpaces raw).length ≤ 48 ∧
      (compactLoop (skipSpaces raw) false []).length ≤ 48 ∧
      (compactBrand raw)[(compactLoop (skipSpaces raw) false []).length]? = some 0 ∧
      (compactBrand raw).length ≤ 49) ∧
    (rawBrand (cpuid_words hw 0x80000002) (cpuid_words hw 0x80000003)
      (cpuid_words hw 0x80000004)).length = 48 ∧
    (construct hw).brand_.length ≤ 49 := by
  have hraw : ∀ raw : List Nat, raw.length = 48 →
      (compactLoop (skipSpaces raw) false []).length ≤ (skipSpaces raw).length ∧
      (skipSpaces raw).length ≤ 48 ∧
      (compactLoop (skipSpaces raw) false []).length ≤ 48 ∧
      (compactBrand raw)[(compactLoop (skipSpaces raw) false []).length]? = some 0 ∧
      (compactBrand raw).length ≤ 49 := by
    intro raw h48
    have h1 := compactLoop_length (skipSpaces raw) false []
    have h2 := skipSpaces_length raw
    simp only [List.length_nil, Bool.false_eq_true, if_false] at h1
    refine ⟨by omega, by omega, by omega, ?_, ?_⟩
    · simp [compactBrand]
    · simp only [compactBrand, List.length_append, List.length_singleton]
      omega
  refine ⟨hraw, rawBrand_length _ _ _, ?_⟩
  rw [construct_eq_closedForm]
  by_cases hx : 0x80000000 < (cpuid_words hw 0x80000000).w0
  · simp only [closedForm, hx, decide_True, if_true]
    exact (hraw _ (rawBrand_length _ _ _)).2.2.2.2
  · simp only [closedForm, hx, decide_False, Bool.false_eq_true, if_false]
    decide

/-- C21 at concrete inputs: for the raw bytes of `mockXeon` 33 bytes are
written and the terminator is at index 33; for 48 bytes without a space 48
bytes are written and the terminator is at index 48. -/
theorem C21_brand_no_overrun_witness :
    ((rawBrand (cpuid_words mockXeon 0x80000002) (cpuid_words mockXeon 0x80000003)
        (cpuid_words mockXeon 0x80000004)).length = 48 ∧
      (compactLoop (skipSpaces (rawBrand (cpuid_words mockXeon 0x80000002)
        (cpuid_words mockXeon 0x80000003) (cpuid_words mockXeon 0x80000004))) false []).length
        = 33) ∧
    ((List.replicate 48 65).length = 48 ∧
      (compactLoop (skipSpaces (List.replicate 48 65)) false []).length = 48 ∧
      (compactBrand (List.replicate 48 65)).length ≤ 49) :=
  ⟨by decide,
   by decide, by decide,
   ((C21_brand_no_overrun mockXeon).1 (List.replicate 48 65) (by decide)).2.2.2.2⟩

/-! ## Algebra of conditions -/

theorem xor_one_div_two (n : Nat) : (n ^^^ 1) / 2 = n / 2 := by
  rw [Nat.xor_div_two]
  norm_num

/-- The `switch` of `CommuteCondition` with its labels written as numbers. -/
theorem CommuteCondition_eq (cc : Int) :
    CommuteCondition cc =
      if cc = 2 then 7 else if cc = 7 then 2 else if cc = 3 then 6 else if cc = 6 then 3
      else if cc = 12 then 15 else if cc = 15 then 12 else if cc = 13 then 14
      else if cc = 14 then 13 else cc := rfl

/-- Outside 2..15 the `default` branch is taken. -/
theorem CommuteCondition_outside (cc : Int) (h : cc < 2 ∨ 15 < cc) :
    CommuteCondition cc = cc := by
  rw [CommuteCondition_eq]
  split_ifs <;> first | rfl | omega

/-- C22: `CommuteCondition` is an involution on every condition value: the 16
real conditions, always, never, every negative value and every other
integer. -/
theorem C22_commute_involution (cc : Condition) :
    CommuteCondition (CommuteCondition cc) = cc := by
  have key : ∀ c : Int, CommuteCondition (CommuteCondition c) = c := by
    intro c
    by_cases h : 0 ≤ c ∧ c < 16
    · obtain ⟨h0, h16⟩ := h
      interval_cases c <;> decide
    · have ho : c < 2 ∨ 15 < c := by omega
      rw [CommuteCondition_outside c ho, CommuteCondition_outside c ho]
  exact key cc

/-- C23: negation and commutation commute on every condition value (real,
pseudo or negative): `NegateCondition(CommuteCondition(cc))` equals
`CommuteCondition(NegateCondition(cc))`. -/
theorem C23_negate_commute_comm (cc : Condition) :
    NegateCondition (CommuteCondition cc) = CommuteCondition (NegateCondition cc) := by
  cases cc with
  | ofNat n =>
    by_cases h : n < 16
    · interval_cases n <;> decide
    · have hx : 16 ≤ n ^^^ 1 := by
        have := xor_one_div_two n
        omega
      have hN : NegateCondition (Int.ofNat n) = ((n ^^^ 1 : Nat) : Int) := rfl
      have h1 : CommuteCondition (Int.ofNat n) = Int.ofNat n :=
        CommuteCondition_outside _ (Or.inr (by simp only [Int.ofNat_eq_coe]; omega))
      rw [h1, hN, CommuteCondition_outside _ (Or.inr (by omega))]
  | negSucc n =>
    have hc : ∀ m : Nat, CommuteCondition (Int.negSucc m) = Int.negSucc m := by
      intro m
      have hneg : Int.negSucc m < 0 := Int.negSucc_lt_zero m
      exact CommuteCondition_outside _ (Or.inl (by omega))
    have hN : NegateCondition (Int.negSucc n) = Int.negSucc (n ^^^ 1) := rfl
    rw [hc n, hN, hc]

end sling.jit
